import Mathlib

/-!
Shallow embedding of the `social_media_promotion` package
(Qurious-Sharks/GenAI_Exchange) and proofs about its orchestration,
catalog-upsert and video-generation logic.

Conventions used throughout:
* Python strings are Lean `String`s; Python truthiness of a string is
  non-emptiness (`None` returned by `dict.get` is conflated with `""`,
  which is sound everywhere the source only tests truthiness).
* The process environment is an association list `Env`; the file system is
  the set (list) of existing paths `FS`.  File copies and writes are
  modelled as succeeding (the source's `except` fallbacks for failing
  copies are noted where they exist).
* The SQLite database behind both the storefront and
  `add_product_to_website` is a pair of lists of rows with explicit
  auto-increment counters.
* Timestamped file names are abstracted to fixed names, since no claim
  depends on the timestamp.
-/

namespace GenAI

/-- Python string truthiness: a string is truthy iff non-empty. -/
def pyTruthy (s : String) : Bool := s != ""

/-- Python `str.strip()`: drop leading and trailing whitespace
(implemented structurally over the character list so that it computes by
kernel reduction). -/
def pyStrip (s : String) : String :=
  String.mk (((s.data.dropWhile Char.isWhitespace).reverse.dropWhile Char.isWhitespace).reverse)

/-- Python `a or b` on strings: `a` if truthy, else `b`. -/
def pyOr (a b : String) : String := if a != "" then a else b

/-- `os.path.basename` for `/`-separated paths: the characters after the
last `/`. -/
def basename (p : String) : String :=
  String.mk ((p.data.reverse.takeWhile (fun c => c != '/')).reverse)

/-- The filename sanitizer used by the storefront upload endpoints:
keep only alphanumeric characters and `.`, `_`, `-`. -/
def sanitizeFileChars (s : String) : String :=
  String.mk (s.data.filter (fun c => c.isAlphanum || c == '.' || c == '_' || c == '-'))

/-- Python `str.isdigit()` restricted to ASCII digit strings:
non-empty and all characters are digits. -/
def pyIsdigit (s : String) : Bool := s != "" && s.data.all Char.isDigit

/-- Python `int(s)` on a digit string (the only way the source reaches
`int`, guarded by `isdigit`): base-10 value of the digit characters. -/
def pyInt (s : String) : Nat :=
  s.data.foldl (fun acc c => acc * 10 + (c.toNat - '0'.toNat)) 0

/-- The cost coercion in `gradio_app.full_promotion_ui`:
`int(cost) if cost and cost.isdigit() else 0`. -/
def pyParseCost (s : String) : Nat := if s != "" && pyIsdigit s then pyInt s else 0

/-! ### Environment and file system -/

/-- Process environment: association list from variable names to values. -/
abbrev Env := List (String × String)

/-- `os.getenv(k)` / `os.environ.get(k)`. -/
def envGet (e : Env) (k : String) : Option String :=
  (e.find? (fun kv => kv.1 == k)).map (·.2)

/-- `os.getenv(k, d)`. -/
def envGetD (e : Env) (k d : String) : String := (envGet e k).getD d

/-- `os.environ[k] = v`. -/
def envSet (e : Env) (k v : String) : Env :=
  (k, v) :: e.filter (fun kv => kv.1 != k)

/-- File system: the list of existing paths. -/
abbrev FS := List String

/-- `os.path.exists`. -/
def fsExists (fs : FS) (p : String) : Bool := fs.contains p

/-! ### Database model

Rows of the `users` and `products` tables shared by `app_shop.py` and the
models redeclared inside `main.add_product_to_website`.  `image_path` is
the nullable `String` column (the storefront stores `None` when no image
was attached, `main.py` stores `""`). -/

structure UserRec where
  id : Nat
  username : String
  password : String
  is_admin : Bool
  deriving Repr, DecidableEq

structure ProdRec where
  id : Nat
  name : String
  details : String
  price : String
  image_path : Option String
  user_id : Nat
  deriving Repr, DecidableEq

/-- Database state: table contents in insertion (= primary key) order plus
the auto-increment counters. -/
structure DB where
  users : List UserRec
  products : List ProdRec
  nextUserId : Nat
  nextProductId : Nat
  deriving Repr, DecidableEq

def emptyDB : DB := ⟨[], [], 1, 1⟩

/-- `db.query(User).filter(User.username == username).first()`. -/
def findUser (db : DB) (username : String) : Option UserRec :=
  db.users.find? (fun u => u.username == username)

/-- The natural-key predicate `(Product.user_id == uid) & (Product.name == name)`
used by every product query in the source. -/
def keyB (uid : Nat) (name : String) (p : ProdRec) : Bool :=
  p.user_id == uid && p.name == name

/-- `db.query(Product).filter(Product.user_id == uid, Product.name == name).first()`. -/
def findProduct (products : List ProdRec) (uid : Nat) (name : String) : Option ProdRec :=
  products.find? (keyB uid name)

/-- The find-or-create-user preamble shared verbatim by `upload_product`,
`api_upload_product` and `add_product_to_website`: look the user up by
exact username; if absent, insert a fresh non-admin user with empty
password. -/
def findOrCreateUser (db : DB) (username : String) : DB × UserRec :=
  match findUser db username with
  | some u => (db, u)
  | none =>
      let u : UserRec := ⟨db.nextUserId, username, "", false⟩
      ({ db with users := db.users ++ [u], nextUserId := db.nextUserId + 1 }, u)

/-- In-place ORM mutation of the row returned by `.first()`: update the
first row matching the `(user_id, name)` key. -/
def updateFirstProduct (ps : List ProdRec) (uid : Nat) (name : String)
    (f : ProdRec → ProdRec) : List ProdRec :=
  match ps with
  | [] => []
  | p :: rest =>
      if keyB uid name p then f p :: rest
      else p :: updateFirstProduct rest uid name f

/-- The sanitized stored image filename computed by
`app_shop.upload_product` when a file with a non-empty filename is
attached (`image` is `some filename` in that case). -/
def uploadImagePath (username name : String) (image : Option String) : Option String :=
  match image with
  | some fn =>
      if fn != "" then some (sanitizeFileChars (username ++ "_" ++ name ++ "_" ++ fn))
      else none
  | none => none

/-- `app_shop.upload_product` (POST `/upload`): find-or-create the user,
then update the existing product for `(user.id, name)` in place —
overwriting `image_path` only when a new image was supplied — or insert a
new product row. -/
def upload_product (db : DB) (username name details price : String)
    (image : Option String) : DB :=
  let dbu := findOrCreateUser db username
  let db := dbu.1
  let user := dbu.2
  let image_path := uploadImagePath username name image
  match findProduct db.products user.id name with
  | some _ =>
      { db with
          products := updateFirstProduct db.products user.id name (fun p =>
            { p with
                details := details
                price := price
                image_path := match image_path with
                  | some ip => some ip
                  | none => p.image_path }) }
  | none =>
      { db with
          products := db.products ++
            [⟨db.nextProductId, name, details, price, image_path, user.id⟩]
          nextProductId := db.nextProductId + 1 }

/-- `main.add_product_to_website`: find-or-create the user; if a product
with the `(user.id, product_name)` key already exists the function prints
a warning and returns with the database otherwise unchanged; only when
the key is absent does it insert a new row, storing the *basename* of the
image path (or `""`). -/
def add_product_to_website (db : DB) (user_name product_name product_details : String)
    (image_path price : String) : DB :=
  let dbu := findOrCreateUser db user_name
  let db := dbu.1
  let user := dbu.2
  match findProduct db.products user.id product_name with
  | some _ => db
  | none =>
      { db with
          products := db.products ++
            [⟨db.nextProductId, product_name, product_details, price,
              some (if image_path != "" then basename image_path else ""), user.id⟩]
          nextProductId := db.nextProductId + 1 }

/-- All catalog rows stored under the natural key
`(owner username, product name)`. -/
def keyProducts (db : DB) (username name : String) : List ProdRec :=
  match findUser db username with
  | none => []
  | some u => db.products.filter (keyB u.id name)

/-- Two catalog rows have distinct natural keys. -/
def keyDistinct (p q : ProdRec) : Prop := ¬(p.user_id = q.user_id ∧ p.name = q.name)

/-- Well-formedness of a database state, as guaranteed by the schema
(`username` unique, `UniqueConstraint(user_id, name)`) and auto-increment
primary keys. -/
structure WF (db : DB) : Prop where
  usernames_nodup : (db.users.map (·.username)).Nodup
  user_ids_lt : ∀ u ∈ db.users, u.id < db.nextUserId
  prod_user_ids_lt : ∀ p ∈ db.products, p.user_id < db.nextUserId
  keys_nodup : db.products.Pairwise keyDistinct

/-! ### Pipeline orchestration (`main.py`) -/

/-- The error taxonomy of §7 of the design document.  `main.py` itself
raises none of these; they can only enter a run through the crew kickoff
(external collaborator) result.  `missingFieldError` exists so that the
validation claims are statable; no code path constructs it. -/
inductive PyErr
  | missingFieldError (msg : String)
  | timeoutError (msg : String)
  | valueError (msg : String)
  | importError (msg : String)
  | runtimeError (msg : String)
  | externalError (msg : String)
  deriving Repr, DecidableEq

/-- The flat input record built by the UI entry points and read with
`inputs.get(...)`.  Missing keys are represented by `""` (`None` and `""`
are both falsy and the source only tests truthiness).  `cost` is the
integer the Gradio handler stores (`none` when the key is absent). -/
structure Inputs where
  user : String := ""
  user_name : String := ""
  cost : Option Nat := none
  product_name : String := ""
  product_description : String := ""
  product_details : String := ""
  language : String := ""
  image_path : String := ""
  product_image_path : String := ""
  user_story : String := ""
  deriving Repr, DecidableEq

/-- `str(inputs.get("cost") or "")`: the integer `0` and a missing key are
both falsy and give `""`. -/
def costVal (c : Option Nat) : String :=
  match c with
  | none => ""
  | some n => if n == 0 then "" else toString n

/-- Mutable state a pipeline run threads: environment, file system and the
catalog database. -/
structure PipeState where
  env : Env
  fs : FS
  db : DB
  deriving Repr, DecidableEq

def WEB_UPLOADS_DIR : String := "shop_data/static/uploads"

/-- `main.copy_image_to_web_dir`: `""` for a missing/empty source path,
otherwise copy the file into the web uploads directory and return the new
path (the `except` branch for a failing copy is not modelled: copies
succeed in this idealized file system). -/
def copy_image_to_web_dir (fs : FS) (image_path : String) : FS × String :=
  if image_path == "" || !fsExists fs image_path then (fs, "")
  else
    let web_path := WEB_UPLOADS_DIR ++ "/" ++ basename image_path
    (web_path :: fs, web_path)

/-- The environment-population preamble of `run_promotion_pipeline`
(main.py lines 130-151): strip each input, set the corresponding
environment variable only when the stripped value is non-empty, and for
the image copy it to the web directory and store the *copied* path (which
is `""` when the source file does not exist). -/
def promoEnvSetup (inputs : Inputs) (st : PipeState) : PipeState :=
  let user_val := pyStrip (pyOr inputs.user inputs.user_name)
  let cost_val := pyStrip (costVal inputs.cost)
  let prod_val := pyStrip inputs.product_name
  let desc_val := pyStrip (pyOr inputs.product_description inputs.product_details)
  let lang_val := pyStrip inputs.language
  let img_val := pyStrip (pyOr inputs.image_path inputs.product_image_path)
  let env := st.env
  let env := if user_val != "" then envSet env "user" user_val else env
  let env := if cost_val != "" then envSet env "cost" cost_val else env
  let env := if prod_val != "" then envSet env "product_name" prod_val else env
  let env := if desc_val != "" then envSet env "product_description" desc_val else env
  let fsenv :=
    if img_val != "" then
      let fsweb := copy_image_to_web_dir st.fs img_val
      (fsweb.1, envSet env "image_path" fsweb.2)
    else (st.fs, env)
  let env := if lang_val != "" then envSet fsenv.2 "language" lang_val else fsenv.2
  { st with env := env, fs := fsenv.1 }

/-- The environment-population preamble of `run_story_advertising_pipeline`
(main.py lines 234-260); identical to the promotion one plus `user_story`. -/
def storyEnvSetup (inputs : Inputs) (st : PipeState) : PipeState :=
  let user_val := pyStrip (pyOr inputs.user inputs.user_name)
  let story_val := pyStrip inputs.user_story
  let prod_val := pyStrip inputs.product_name
  let desc_val := pyStrip (pyOr inputs.product_description inputs.product_details)
  let img_val := pyStrip (pyOr inputs.image_path inputs.product_image_path)
  let lang_val := pyStrip inputs.language
  let env := st.env
  let env := if user_val != "" then envSet env "user" user_val else env
  let env := if story_val != "" then envSet env "user_story" story_val else env
  let env := if prod_val != "" then envSet env "product_name" prod_val else env
  let env := if desc_val != "" then envSet env "product_description" desc_val else env
  let fsenv :=
    if img_val != "" then
      let fsweb := copy_image_to_web_dir st.fs img_val
      (fsweb.1, envSet env "image_path" fsweb.2)
    else (st.fs, env)
  let env := if lang_val != "" then envSet fsenv.2 "language" lang_val else fsenv.2
  { st with env := env, fs := fsenv.1 }

/-- The prompt-template variables read from the environment by
`SocialMediaPromotion.__init__` (crew.py lines 139-148), with their
hard-coded defaults. -/
structure CrewVars where
  user : String
  cost : String
  product_name : String
  product_description : String
  user_story : String
  image_path : String
  language : String
  deriving Repr, DecidableEq

/-- `SocialMediaPromotion.__init__`. -/
def crewVarsInit (env : Env) : CrewVars :=
  { user := envGetD env "user" "the user"
    cost := envGetD env "cost" "the cost"
    product_name := envGetD env "product_name" "our amazing product"
    product_description := envGetD env "product_description" "a detailed product description"
    user_story := envGetD env "user_story" "their personal journey and challenges"
    image_path := envGetD env "image_path" ""
    language := envGetD env "language" "English" }

/-- The four crew (task-chain) variants defined in crew.py. -/
inductive CrewKind
  | withImage
  | withoutImage
  | priceGeneration
  | storyAdvertising
  deriving Repr, DecidableEq

/-- What a pipeline run produced: the returned artifact or propagated
exception, the final mutable state, the crew template variables that were
constructed, which chain was selected, and whether a crew kickoff
(the sequence of adapter-calling steps) was invoked at all. -/
structure RunOutcome where
  result : Except PyErr String
  state : PipeState
  crewVars : CrewVars
  selected : CrewKind
  kickoffCalled : Bool
  deriving Repr

/-- `main.run_promotion_pipeline`, with the crew kickoff abstracted as
`kick` (it is a pure wall of external model/messaging calls).  Faithful
structure: no validation of any field; env setup; crew construction;
chain selection by *truthiness* of
`inputs.get("product_image_path") or inputs.get("image_path") or os.getenv("image_path")`;
on success the post block inserts a catalog row when the three text
fields are non-empty; on a kickoff exception the error is printed and
re-raised (`finally` is a no-op `pass`). -/
def run_promotion_pipeline (kick : CrewKind → Except PyErr String)
    (inputs : Inputs) (st0 : PipeState) : RunOutcome :=
  let st := promoEnvSetup inputs st0
  let vars := crewVarsInit st.env
  let sel_path :=
    pyOr inputs.product_image_path (pyOr inputs.image_path (envGetD st.env "image_path" ""))
  let sel := if sel_path != "" then CrewKind.withImage else CrewKind.withoutImage
  match kick sel with
  | Except.error e =>
      { result := .error e, state := st, crewVars := vars, selected := sel,
        kickoffCalled := true }
  | Except.ok res =>
      let user_name := pyStrip (pyOr inputs.user inputs.user_name)
      let product_name := pyStrip inputs.product_name
      let product_details := pyStrip (pyOr inputs.product_description inputs.product_details)
      let image_path := envGetD st.env "image_path" ""
      let cost_val := envGetD st.env "cost" "0"
      let db :=
        if user_name != "" && product_name != "" && product_details != "" then
          add_product_to_website st.db user_name product_name product_details image_path cost_val
        else st.db
      { result := .ok res, state := { st with db := db }, crewVars := vars,
        selected := sel, kickoffCalled := true }

/-- `main.run_story_advertising_pipeline`: same shape, always the story
crew, and the catalog insert uses the *default* price `"0"` (the `cost`
argument is not passed).  The `finally` block is again a no-op. -/
def run_story_advertising_pipeline (kick : CrewKind → Except PyErr String)
    (inputs : Inputs) (st0 : PipeState) : RunOutcome :=
  let st := storyEnvSetup inputs st0
  let vars := crewVarsInit st.env
  let sel := CrewKind.storyAdvertising
  match kick sel with
  | Except.error e =>
      { result := .error e, state := st, crewVars := vars, selected := sel,
        kickoffCalled := true }
  | Except.ok res =>
      let user_name := pyStrip (pyOr inputs.user inputs.user_name)
      let product_name := pyStrip inputs.product_name
      let product_details := pyStrip (pyOr inputs.product_description inputs.product_details)
      let image_path := envGetD st.env "image_path" ""
      let db :=
        if user_name != "" && product_name != "" && product_details != "" then
          add_product_to_website st.db user_name product_name product_details image_path "0"
        else st.db
      { result := .ok res, state := { st with db := db }, crewVars := vars,
        selected := sel, kickoffCalled := true }

/-- `main.run_price_generation_pipeline`: env setup without cost/image,
price crew kickoff, no catalog write. -/
def run_price_generation_pipeline (kick : CrewKind → Except PyErr String)
    (inputs : Inputs) (st0 : PipeState) : RunOutcome :=
  let user_val := pyStrip (pyOr inputs.user inputs.user_name)
  let prod_val := pyStrip inputs.product_name
  let desc_val := pyStrip (pyOr inputs.product_description inputs.product_details)
  let lang_val := pyStrip inputs.language
  let env := st0.env
  let env := if user_val != "" then envSet env "user" user_val else env
  let env := if prod_val != "" then envSet env "product_name" prod_val else env
  let env := if desc_val != "" then envSet env "product_description" desc_val else env
  let env := if lang_val != "" then envSet env "language" lang_val else env
  let st := { st0 with env := env }
  let vars := crewVarsInit st.env
  let sel := CrewKind.priceGeneration
  match kick sel with
  | Except.error e =>
      { result := .error e, state := st, crewVars := vars, selected := sel,
        kickoffCalled := true }
  | Except.ok res =>
      { result := .ok res, state := st, crewVars := vars, selected := sel,
        kickoffCalled := true }

/-! ### Gradio entry point (`gradio_app.py`), text-input mode -/

def IMAGES_DIR : String := "images"

/-- Lowercasing (`str.lower()` on ASCII extensions). -/
def lowerStr (s : String) : String := String.mk (s.data.map Char.toLower)

/-- File extension including the dot, `".bin"` when there is none
(`os.path.splitext(...)[1] or ".bin"`). -/
def extOf (p : String) : String :=
  let revBase := p.data.reverse.takeWhile (fun c => c != '/')
  if revBase.contains '.' then
    String.mk ('.' :: (revBase.takeWhile (fun c => c != '.')).reverse)
  else ".bin"

/-- `gradio_app._save_file`: `""` when the temp path is missing;
otherwise persist the upload under a prefixed name in `out_dir`
(timestamp abstracted away) and, for image extensions, also copy it to
the web uploads directory, returning the web path. -/
def save_file (fs : FS) (temp_path out_dir tag : String) : FS × String :=
  if temp_path == "" || !fsExists fs temp_path then (fs, "")
  else
    let out_path := out_dir ++ "/" ++ tag ++ extOf temp_path
    let fs := out_path :: fs
    if [".jpg", ".jpeg", ".png", ".gif", ".webp"].contains (lowerStr (extOf temp_path)) then
      let fsweb := copy_image_to_web_dir fs out_path
      (fsweb.1, if fsweb.2 != "" then fsweb.2 else out_path)
    else (fs, out_path)

/-- Result of a Gradio handler: the markdown output, the transcript echo,
whether the pipeline function was invoked, and the final state. -/
structure UiOutcome where
  output : String
  transcript : String
  pipelineCalled : Bool
  state : PipeState
  deriving Repr

/-- `gradio_app.full_promotion_ui` with `input_type == "Text"` (the audio
path goes through external transcription and ends in the same `inputs`
record).  Validation tests *truthiness of the unstripped fields*; the
stored `cost` is `int(cost) if cost and cost.isdigit() else 0`; the
follow-up `requests.post` to the storefront API is wrapped in
`try/except: pass` and not modelled. -/
def full_promotion_ui (kick : CrewKind → Except PyErr String) (st : PipeState)
    (user_name product_name cost text_details image_file output_language : String) :
    UiOutcome :=
  let transcript := text_details
  if user_name == "" || product_name == "" || transcript == "" then
    { output := "Please fill Your Name, Product Name and Product Details (text or audio).",
      transcript := transcript, pipelineCalled := false, state := st }
  else
    let fsimg := save_file st.fs image_file IMAGES_DIR "promo_image"
    let st := { st with fs := fsimg.1 }
    let image_path := fsimg.2
    let inputs : Inputs :=
      { user := pyStrip user_name
        user_name := pyStrip user_name
        cost := some (pyParseCost cost)
        product_name := pyStrip product_name
        product_details := pyStrip transcript
        product_description := pyStrip transcript
        product_image_path := image_path
        image_path := image_path
        language := output_language }
    let out := run_promotion_pipeline kick inputs st
    match out.result with
    | .ok res =>
        { output := res, transcript := transcript, pipelineCalled := true,
          state := out.state }
    | .error _ =>
        { output := "Error while running promotion", transcript := transcript,
          pipelineCalled := true, state := out.state }

/-! ### Video generation tools (`tools/img_tool.py`, `tools/custom_tool.py`) -/

/-- The polling loop of `generate_video_with_veo` (img_tool.py lines
97-99): `while not operation.done: sleep(10); operation = get(operation)`.
`done i` is the `done` flag observed at the `i`-th check, so `i` is also
the number of sleep-and-repoll iterations performed before that check.
The source loop has *no* budget, so the embedding is fuel-indexed:
`none` means the loop is still running after `fuel` checks. -/
def veoPoll (done : Nat → Bool) : Nat → Nat → Option Nat
  | 0, _ => none
  | fuel + 1, i => if done i then some i else veoPoll done fuel (i + 1)

/-- External-world knobs of `generate_video_with_veo`. -/
structure VeoEnv where
  hasApiKey : Bool
  clientAvailable : Bool
  imagenReturnsImages : Bool
  opDone : Nat → Bool
  downloadOk : Bool

/-- `img_tool.generate_video_with_veo`: credential and client checks, the
uploaded-image / Imagen branch, the budget-less polling loop, then the
download.  `none` means the call has not returned after `fuel` polls
(the loop in the source runs forever when the operation never completes).
The timestamped output name is abstracted to a fixed one. -/
def generate_video_with_veo (c : VeoEnv) (fs : FS) (image_path : Option String)
    (fuel : Nat) : Option (Except PyErr String) :=
  if !c.hasApiKey then some (.error (.valueError "Missing GEMINI_API_KEY or GOOGLE_API_KEY"))
  else if !c.clientAvailable then some (.error (.importError "Install google-genai"))
  else
    let imagenNeeded :=
      match image_path with
      | some p => !(p != "" && fsExists fs p)
      | none => true
    if imagenNeeded && !c.imagenReturnsImages then
      some (.error (.runtimeError "Imagen API call returned no images for Veo input"))
    else
      match veoPoll c.opDone fuel 0 with
      | none => none
      | some _ =>
          if c.downloadOk then some (.ok "videos/veo.mp4")
          else some (.error (.externalError "Error downloading video"))

/-- The bounded polling loop of `generate_video_with_veo_simple`
(img_tool.py lines 202-212): at most `fuel` sleep iterations
(`max_wait = 300` seconds at 10-second steps gives 30); an exception from
`operations.get` breaks out of the loop.  Returns whether the operation
reported `done` when the loop exited. -/
def veoSimplePoll (done getRaises : Nat → Bool) : Nat → Nat → Bool
  | 0, i => done i
  | fuel + 1, i =>
      if done i then true
      else if getRaises i then false
      else veoSimplePoll done getRaises fuel (i + 1)

def FALLBACK_VIDEO : String := "videos/product_video.mp4"

/-- `img_tool._create_fallback_video`: reuse the sample video if present,
else synthesize one with ffmpeg (returning `""` when that fails too). -/
def create_fallback_video (ffmpegOk : Bool) (fs : FS) : FS × String :=
  if fsExists fs FALLBACK_VIDEO then (fs, FALLBACK_VIDEO)
  else if ffmpegOk then (FALLBACK_VIDEO :: fs, FALLBACK_VIDEO)
  else (fs, "")

/-- External-world knobs of `generate_video_with_veo_simple`. -/
structure VeoSimpleEnv where
  hasApiKey : Bool
  clientAvailable : Bool
  envImagePath : String
  imagenReturnsImages : Bool
  imagenSaveOk : Bool
  genVideosRaises : Option PyErr
  opDone : Nat → Bool
  opGetRaises : Nat → Bool
  hasResponse : Bool
  downloadOk : Bool
  ffmpegOk : Bool

/-- The phase of `generate_video_with_veo_simple` from
`client.models.generate_videos` onwards: any exception in the enclosing
`try` is caught and turned into a fallback video with `""` as image path;
a timed-out poll, a missing response or a failed download each return the
fallback video together with the image path gathered so far.  The
function never raises: every branch returns `.ok`. -/
def veoSimpleVideoPhase (c : VeoSimpleEnv) (fs : FS) (imgPath : String) :
    FS × Except PyErr (String × String) :=
  match c.genVideosRaises with
  | some _ =>
      let fsfb := create_fallback_video c.ffmpegOk fs
      (fsfb.1, .ok (fsfb.2, ""))
  | none =>
      if !veoSimplePoll c.opDone c.opGetRaises 30 0 then
        let fsfb := create_fallback_video c.ffmpegOk fs
        (fsfb.1, .ok (fsfb.2, imgPath))
      else if !c.hasResponse then
        let fsfb := create_fallback_video c.ffmpegOk fs
        (fsfb.1, .ok (fsfb.2, imgPath))
      else if !c.downloadOk then
        let fsfb := create_fallback_video c.ffmpegOk fs
        (fsfb.1, .ok (fsfb.2, imgPath))
      else
        let out := "videos/veo_generated.mp4"
        (out :: fs, .ok (out, imgPath))

/-- `img_tool.generate_video_with_veo_simple`: missing key or client give
an immediate fallback; the uploaded-image branch uses `IMAGE_PATH` from
the environment; otherwise Imagen generates an image (failure or a failed
save again yield the fallback); then the video phase runs.  All failure
modes return a fallback video in an `.ok` — the tool never propagates an
exception (generated file names are fixed in place of timestamps). -/
def generate_video_with_veo_simple (c : VeoSimpleEnv) (fs : FS) :
    FS × Except PyErr (String × String) :=
  if !c.hasApiKey then
    let fsfb := create_fallback_video c.ffmpegOk fs
    (fsfb.1, .ok (fsfb.2, ""))
  else if !c.clientAvailable then
    let fsfb := create_fallback_video c.ffmpegOk fs
    (fsfb.1, .ok (fsfb.2, ""))
  else
    let ip := c.envImagePath
    if ip != "" && fsExists fs ip then
      veoSimpleVideoPhase c fs ip
    else if !c.imagenReturnsImages then
      let fsfb := create_fallback_video c.ffmpegOk fs
      (fsfb.1, .ok (fsfb.2, ""))
    else if !c.imagenSaveOk then
      let fsfb := create_fallback_video c.ffmpegOk fs
      (fsfb.1, .ok (fsfb.2, ""))
    else
      let gen := "images/imagen_generated.png"
      veoSimpleVideoPhase c (gen :: fs) gen

/-- The polling loop of `custom_tool.VeoVideoGenerator._run` (lines
113-120), the only loop in the repository with a wall-clock budget:
before each sleep it raises `TimeoutError` once elapsed time exceeds
`timeout_s`.  Elapsed time at the `i`-th check is modelled as
`i * intervalS` (both come from `VEO_POLL_INTERVAL_SECONDS` /
`VEO_TIMEOUT_SECONDS`, defaults 10 and 900). -/
def customToolPollAux (done : Nat → Bool) (intervalS timeoutS : Nat) :
    Nat → Nat → Option (Except PyErr Nat)
  | 0, _ => none
  | fuel + 1, i =>
      if done i then some (.ok i)
      else if timeoutS < i * intervalS then
        some (.error (.timeoutError "Veo video generation timed out"))
      else customToolPollAux done intervalS timeoutS fuel (i + 1)

/-- `VeoVideoGenerator._run`'s poll loop with enough fuel that only a
zero polling interval can exhaust it. -/
def customToolPoll (done : Nat → Bool) (intervalS timeoutS : Nat) :
    Option (Except PyErr Nat) :=
  customToolPollAux done intervalS timeoutS (timeoutS / max intervalS 1 + 2) 0

/-! ### Concrete scenarios used by the counterexample theorems -/

/-- A crew kickoff in which every external call succeeds. -/
def kickOkDone : CrewKind → Except PyErr String := fun _ => Except.ok "done"

/-- Fresh state: empty environment, empty file system, empty catalog. -/
def freshState : PipeState := ⟨[], [], emptyDB⟩

/-- First promotion request for `(alice, Mug)`. -/
def promoInputsV1 : Inputs :=
  { user := "alice", product_name := "Mug", product_details := "v1", cost := some 10 }

/-- Second promotion request for the same `(alice, Mug)` key with new
details and price. -/
def promoInputsV2 : Inputs :=
  { user := "alice", product_name := "Mug", product_details := "v2", cost := some 12 }

/-- A `generate_video_with_veo_simple` world where every call succeeds
but the long-running operation never reports `done=True`. -/
def simpleNeverDoneEnv : VeoSimpleEnv :=
  { hasApiKey := true, clientAvailable := true, envImagePath := "img.png"
    imagenReturnsImages := true, imagenSaveOk := true, genVideosRaises := none
    opDone := fun _ => false, opGetRaises := fun _ => false
    hasResponse := true, downloadOk := true, ffmpegOk := true }

/-- A `generate_video_with_veo_simple` world where
`client.models.generate_videos` raises. -/
def simpleRaisingEnv : VeoSimpleEnv :=
  { hasApiKey := true, clientAvailable := true, envImagePath := "img.png"
    imagenReturnsImages := true, imagenSaveOk := true
    genVideosRaises := some (PyErr.externalError "boom")
    opDone := fun _ => true, opGetRaises := fun _ => false
    hasResponse := true, downloadOk := true, ffmpegOk := true }

/-- A `generate_video_with_veo` world that succeeds everywhere but whose
operation never completes. -/
def veoNeverDoneEnv : VeoEnv :=
  { hasApiKey := true, clientAvailable := true, imagenReturnsImages := true
    opDone := fun _ => false, downloadOk := true }

/-! ### Generic list and environment lemmas -/

theorem find?_eq_head?_filter {α} (q : α → Bool) (l : List α) :
    l.find? q = (l.filter q).head? := by
  induction l with
  | nil => rfl
  | cons a l ih =>
      rcases hq : q a with _ | _
      · rw [List.find?_cons, List.filter_cons, hq]
        simpa using ih
      · rw [List.find?_cons, List.filter_cons, hq]
        simp

theorem find?_append_of_none {α} (q : α → Bool) (l₁ l₂ : List α)
    (h : l₁.find? q = none) : (l₁ ++ l₂).find? q = l₂.find? q := by
  induction l₁ with
  | nil => rfl
  | cons a l ih =>
      rw [List.find?_cons] at h
      rcases hq : q a with _ | _
      · rw [List.cons_append, List.find?_cons, hq]
        exact ih (by rwa [hq] at h)
      · rw [hq] at h; exact absurd h (by simp)

theorem find?_decomp {α} (q : α → Bool) :
    ∀ (l : List α) (a : α), l.find? q = some a →
      q a = true ∧ ∃ l₁ l₂, l = l₁ ++ a :: l₂ ∧ ∀ x ∈ l₁, q x = false := by
  intro l
  induction l with
  | nil => intro a h; simp [List.find?] at h
  | cons b l ih =>
      intro a h
      rw [List.find?_cons] at h
      rcases hb : q b with _ | _
      · rw [hb] at h
        obtain ⟨hqa, l₁, l₂, rfl, hl₁⟩ := ih a h
        refine ⟨hqa, b :: l₁, l₂, rfl, ?_⟩
        intro x hx
        rcases List.mem_cons.mp hx with rfl | hx
        · exact hb
        · exact hl₁ x hx
      · rw [hb] at h
        obtain rfl : b = a := by simpa using h
        exact ⟨hb, [], l, rfl, by simp⟩

theorem filter_eq_nil_of_find?_none {α} (q : α → Bool) (l : List α)
    (h : l.find? q = none) : l.filter q = [] := by
  rw [find?_eq_head?_filter] at h
  exact List.head?_eq_none_iff.mp h

/-- With pairwise-distinct keys, everything after the first key match
fails the key predicate. -/
theorem filter_tail_nil_of_pairwise {α} (R : α → α → Prop) (q : α → Bool)
    (hR : ∀ a b, q a = true → q b = true → ¬R a b)
    (l₁ l₂ : List α) (a : α) (hq : q a = true)
    (hp : (l₁ ++ a :: l₂).Pairwise R) : l₂.filter q = [] := by
  rw [List.pairwise_append] at hp
  have ha := (List.pairwise_cons.mp hp.2.1).1
  apply List.filter_eq_nil_iff.mpr
  intro b hb hqb
  exact hR a b hq hqb (ha b hb)

theorem envGet_envSet_self (e : Env) (k v : String) :
    envGet (envSet e k v) k = some v := by
  simp [envGet, envSet, List.find?]

theorem find?_filter_of_imp {α} (p q : α → Bool) (l : List α)
    (h : ∀ a, q a = true → p a = true) : (l.filter p).find? q = l.find? q := by
  induction l with
  | nil => rfl
  | cons a l ih =>
      by_cases hq : q a
      · have hp := h a hq
        simp [List.filter_cons, hp, List.find?, hq, ih]
      · by_cases hp : p a <;>
          simp [List.filter_cons, hp, List.find?, hq, ih, Bool.eq_false_iff.mpr hq]

theorem envGet_envSet_ne (e : Env) (k k' v : String) (h : k ≠ k') :
    envGet (envSet e k v) k' = envGet e k' := by
  unfold envGet envSet
  rw [List.find?_cons]
  have hk : (((k, v) : String × String).1 == k') = false := by
    simp [h]
  rw [hk]
  rw [find?_filter_of_imp]
  intro a ha
  simp only [bne_iff_ne, ne_eq]
  intro hak
  rw [beq_iff_eq] at ha
  exact h (hak ▸ ha)

/-- A conditional `envSet` for a different key does not change `envGet`. -/
theorem envGet_setIf (e : Env) (k k' v : String) (c : Bool) (h : k ≠ k') :
    envGet (if c then envSet e k v else e) k' = envGet e k' := by
  rcases c with _ | _
  · rfl
  · simp only [if_true]
    exact envGet_envSet_ne e k k' v h

/-! ### Catalog upsert lemmas -/

theorem keyB_eq (uid : Nat) (n : String) (p : ProdRec) (h : keyB uid n p = true) :
    p.user_id = uid ∧ p.name = n := by
  unfold keyB at h
  simpa using h

theorem keyB_refl (uid : Nat) (n : String) (p : ProdRec)
    (h1 : p.user_id = uid) (h2 : p.name = n) : keyB uid n p = true := by
  simp [keyB, h1, h2]

theorem keyB_not_keyDistinct (uid : Nat) (n : String) (a b : ProdRec)
    (ha : keyB uid n a = true) (hb : keyB uid n b = true) : ¬keyDistinct a b := by
  obtain ⟨ha1, ha2⟩ := keyB_eq uid n a ha
  obtain ⟨hb1, hb2⟩ := keyB_eq uid n b hb
  intro h
  exact h ⟨ha1.trans hb1.symm, ha2.trans hb2.symm⟩

theorem findOrCreateUser_products (db : DB) (u : String) :
    (findOrCreateUser db u).1.products = db.products := by
  unfold findOrCreateUser
  cases findUser db u <;> rfl

theorem findOrCreateUser_nextProductId (db : DB) (u : String) :
    (findOrCreateUser db u).1.nextProductId = db.nextProductId := by
  unfold findOrCreateUser
  cases findUser db u <;> rfl

theorem findUser_findOrCreateUser (db : DB) (u : String) :
    findUser (findOrCreateUser db u).1 u = some (findOrCreateUser db u).2 := by
  unfold findOrCreateUser
  cases h : findUser db u with
  | some u0 => simpa using h
  | none =>
      simp only
      unfold findUser at h ⊢
      rw [find?_append_of_none _ _ _ h]
      simp [List.find?]

theorem findOrCreateUser_id_lt (db : DB) (u : String)
    (hids : ∀ x ∈ db.users, x.id < db.nextUserId) :
    (findOrCreateUser db u).2.id < (findOrCreateUser db u).1.nextUserId := by
  unfold findOrCreateUser
  cases h : findUser db u with
  | some u0 =>
      simp only
      exact hids u0 (List.mem_of_find?_eq_some h)
  | none => simp

theorem findOrCreateUser_user_ids (db : DB) (u : String)
    (hids : ∀ x ∈ db.users, x.id < db.nextUserId) :
    ∀ x ∈ (findOrCreateUser db u).1.users, x.id < (findOrCreateUser db u).1.nextUserId := by
  unfold findOrCreateUser
  cases h : findUser db u with
  | some u0 => simpa using hids
  | none =>
      simp only
      intro x hx
      rcases List.mem_append.mp hx with hx | hx
      · exact Nat.lt_succ_of_lt (hids x hx)
      · rw [List.mem_singleton] at hx
        subst hx
        simp

theorem findOrCreateUser_prod_ids (db : DB) (u : String)
    (h : ∀ p ∈ db.products, p.user_id < db.nextUserId) :
    ∀ p ∈ (findOrCreateUser db u).1.products,
      p.user_id < (findOrCreateUser db u).1.nextUserId := by
  unfold findOrCreateUser
  cases hf : findUser db u with
  | some u0 => simpa using h
  | none =>
      simp only
      intro p hp
      exact Nat.lt_succ_of_lt (h p hp)

theorem updateFirst_of_decomp (uid : Nat) (n : String) (f : ProdRec → ProdRec) :
    ∀ (l1 l2 : List ProdRec) (p0 : ProdRec),
      (∀ x ∈ l1, keyB uid n x = false) → keyB uid n p0 = true →
      updateFirstProduct (l1 ++ p0 :: l2) uid n f = l1 ++ f p0 :: l2 := by
  intro l1
  induction l1 with
  | nil =>
      intro l2 p0 _ hp0
      simp [updateFirstProduct, hp0]
  | cons a l ih =>
      intro l2 p0 h hp0
      have ha := h a (by simp)
      simp only [List.cons_append, updateFirstProduct, ha, Bool.false_eq_true, if_false]
      exact congrArg (List.cons a) (ih l2 p0 (fun x hx => h x (by simp [hx])) hp0)

theorem pairwise_replace_mid {α} {R : α → α → Prop} (l1 l2 : List α) (a b : α)
    (h1 : ∀ x, R x a → R x b) (h2 : ∀ x, R a x → R b x)
    (h : (l1 ++ a :: l2).Pairwise R) : (l1 ++ b :: l2).Pairwise R := by
  rw [List.pairwise_append] at h ⊢
  obtain ⟨hl1, hmid, hcross⟩ := h
  rw [List.pairwise_cons] at hmid ⊢
  refine ⟨hl1, ⟨fun x hx => h2 x (hmid.1 x hx), hmid.2⟩, ?_⟩
  intro x hx y hy
  rcases List.mem_cons.mp hy with rfl | hy
  · exact h1 x (hcross x hx a (by simp))
  · exact hcross x hx y (by simp [hy])

theorem filter_append_single (ps : List ProdRec) (uid : Nat) (n : String) (row : ProdRec)
    (hfp : ps.find? (keyB uid n) = none) (hrow : keyB uid n row = true) :
    (ps ++ [row]).filter (keyB uid n) = [row] := by
  rw [List.filter_append, filter_eq_nil_of_find?_none _ _ hfp]
  simp [hrow]

theorem pairwise_append_single (ps : List ProdRec) (uid : Nat) (n : String) (row : ProdRec)
    (hkeys : ps.Pairwise keyDistinct)
    (hfp : ps.find? (keyB uid n) = none) (hrow : keyB uid n row = true) :
    (ps ++ [row]).Pairwise keyDistinct := by
  rw [List.pairwise_append]
  refine ⟨hkeys, by simp, ?_⟩
  intro a ha b hb
  rw [List.mem_singleton] at hb
  have hfa : ¬keyB uid n a = true := List.find?_eq_none.mp hfp a ha
  obtain ⟨hr1, hr2⟩ := keyB_eq uid n row hrow
  intro hcon
  rw [hb] at hcon
  exact hfa (keyB_refl uid n a (hcon.1.trans hr1) (hcon.2.trans hr2))

/-- Characterization of the in-place update path: the unique key match is
replaced by its image under the (key-preserving) field update, key
uniqueness survives, and every row's owner survives. -/
theorem update_spec (ps : List ProdRec) (uid : Nat) (n : String) (f : ProdRec → ProdRec)
    (p0 : ProdRec) (hkeys : ps.Pairwise keyDistinct)
    (hfp : ps.find? (keyB uid n) = some p0)
    (hf : ∀ p, (f p).user_id = p.user_id ∧ (f p).name = p.name) :
    (updateFirstProduct ps uid n f).filter (keyB uid n) = [f p0] ∧
    (updateFirstProduct ps uid n f).Pairwise keyDistinct ∧
    (∀ x ∈ updateFirstProduct ps uid n f, ∃ y ∈ ps, x.user_id = y.user_id) := by
  obtain ⟨hp0, l1, l2, rfl, hl1⟩ := find?_decomp _ _ _ hfp
  have hfkey : keyB uid n (f p0) = true := by
    obtain ⟨h1, h2⟩ := keyB_eq uid n p0 hp0
    exact keyB_refl uid n (f p0) ((hf p0).1.trans h1) ((hf p0).2.trans h2)
  rw [updateFirst_of_decomp uid n f l1 l2 p0 hl1 hp0]
  have hl1f : l1.filter (keyB uid n) = [] :=
    List.filter_eq_nil_iff.mpr (by intro a ha; simp [hl1 a ha])
  have hl2f : l2.filter (keyB uid n) = [] :=
    filter_tail_nil_of_pairwise keyDistinct (keyB uid n)
      (keyB_not_keyDistinct uid n) l1 l2 p0 hp0 hkeys
  refine ⟨?_, ?_, ?_⟩
  · rw [List.filter_append, hl1f, List.filter_cons]
    simp [hfkey, hl2f]
  · refine pairwise_replace_mid l1 l2 p0 (f p0) ?_ ?_ hkeys
    · intro x hx hcon
      exact hx ⟨hcon.1.trans (hf p0).1, hcon.2.trans (hf p0).2⟩
    · intro x hx hcon
      exact hx ⟨(hf p0).1.symm.trans hcon.1, (hf p0).2.symm.trans hcon.2⟩
  · intro x hx
    rcases List.mem_append.mp hx with hx | hx
    · exact ⟨x, by simp [hx], rfl⟩
    · rcases List.mem_cons.mp hx with rfl | hx
      · exact ⟨p0, by simp, (hf p0).1⟩
      · exact ⟨x, by simp [hx], rfl⟩

theorem findOrCreateUser_nextUserId_le (db : DB) (u : String) :
    db.nextUserId ≤ (findOrCreateUser db u).1.nextUserId := by
  unfold findOrCreateUser
  cases findUser db u <;> simp

theorem findOrCreateUser_of_found (db : DB) (u : String) (u0 : UserRec)
    (h : findUser db u = some u0) : findOrCreateUser db u = (db, u0) := by
  unfold findOrCreateUser
  rw [h]

/-- Characterization of one `upload_product` call on a well-formed table:
the user exists afterwards, exactly one row carries the `(user.id, name)`
key, it holds the supplied details and price, its image path is the newly
supplied one or else the previous row's, and the invariants survive. -/
theorem upload_product_spec (db : DB) (u n d pr : String) (i : Option String)
    (hkeys : db.products.Pairwise keyDistinct)
    (husers : ∀ x ∈ db.users, x.id < db.nextUserId)
    (hplt : ∀ p ∈ db.products, p.user_id < db.nextUserId) :
    findUser (upload_product db u n d pr i) u = some (findOrCreateUser db u).2 ∧
    (∃ r : ProdRec,
      (upload_product db u n d pr i).products.filter (keyB (findOrCreateUser db u).2.id n)
          = [r] ∧
      r.details = d ∧ r.price = pr ∧
      r.image_path =
        (match uploadImagePath u n i with
         | some ip => some ip
         | none =>
             match (db.products.filter (keyB (findOrCreateUser db u).2.id n)).head? with
             | some r0 => r0.image_path
             | none => none)) ∧
    (upload_product db u n d pr i).products.Pairwise keyDistinct ∧
    (∀ x ∈ (upload_product db u n d pr i).users,
      x.id < (upload_product db u n d pr i).nextUserId) ∧
    (∀ p ∈ (upload_product db u n d pr i).products,
      p.user_id < (upload_product db u n d pr i).nextUserId) := by
  have hprods := findOrCreateUser_products db u
  have hform : upload_product db u n d pr i =
      (match findProduct db.products (findOrCreateUser db u).2.id n with
       | some _ =>
           { (findOrCreateUser db u).1 with
               products := updateFirstProduct (findOrCreateUser db u).1.products
                 (findOrCreateUser db u).2.id n (fun p =>
                   { p with
                       details := d
                       price := pr
                       image_path := match uploadImagePath u n i with
                         | some ip => some ip
                         | none => p.image_path }) }
       | none =>
           { (findOrCreateUser db u).1 with
               products := (findOrCreateUser db u).1.products ++
                 [⟨(findOrCreateUser db u).1.nextProductId, n, d, pr,
                   uploadImagePath u n i, (findOrCreateUser db u).2.id⟩]
               nextProductId := (findOrCreateUser db u).1.nextProductId + 1 }) := by
    simp only [upload_product]
    rw [hprods]
  rw [hform]
  cases hfp : findProduct db.products (findOrCreateUser db u).2.id n with
  | none =>
      simp only
      have hrow : keyB (findOrCreateUser db u).2.id n
          (⟨(findOrCreateUser db u).1.nextProductId, n, d, pr,
            uploadImagePath u n i, (findOrCreateUser db u).2.id⟩ : ProdRec) = true :=
        keyB_refl _ _ _ rfl rfl
      have hnilfilter : db.products.filter (keyB (findOrCreateUser db u).2.id n) = [] :=
        filter_eq_nil_of_find?_none _ _ hfp
      refine ⟨findUser_findOrCreateUser db u,
        ⟨⟨(findOrCreateUser db u).1.nextProductId, n, d, pr,
          uploadImagePath u n i, (findOrCreateUser db u).2.id⟩, ?_, rfl, rfl, ?_⟩,
        ?_, ?_, ?_⟩
      · rw [hprods]
        exact filter_append_single _ _ _ _ hfp hrow
      · rw [hnilfilter]
        cases uploadImagePath u n i <;> rfl
      · rw [hprods]
        exact pairwise_append_single _ _ _ _ hkeys hfp hrow
      · exact findOrCreateUser_user_ids db u husers
      · intro p hp
        rw [hprods] at hp
        rcases List.mem_append.mp hp with hp | hp
        · exact findOrCreateUser_prod_ids db u hplt p (by rw [hprods]; exact hp)
        · rw [List.mem_singleton] at hp
          subst hp
          exact findOrCreateUser_id_lt db u husers
  | some p0 =>
      simp only
      have hup := update_spec db.products (findOrCreateUser db u).2.id n
        (fun p =>
          { p with
              details := d
              price := pr
              image_path := match uploadImagePath u n i with
                | some ip => some ip
                | none => p.image_path })
        p0 hkeys hfp (fun p => ⟨rfl, rfl⟩)
      have hhead : (db.products.filter (keyB (findOrCreateUser db u).2.id n)).head?
          = some p0 := by
        rw [← find?_eq_head?_filter]
        exact hfp
      refine ⟨findUser_findOrCreateUser db u,
        ⟨{ p0 with
            details := d
            price := pr
            image_path := match uploadImagePath u n i with
              | some ip => some ip
              | none => p0.image_path }, ?_, rfl, rfl, ?_⟩,
        ?_, ?_, ?_⟩
      · rw [hprods]
        exact hup.1
      · rw [hhead]
      · rw [hprods]
        exact hup.2.1
      · exact findOrCreateUser_user_ids db u husers
      · intro p hp
        rw [hprods] at hp
        obtain ⟨y, hy, hxy⟩ := hup.2.2 p hp
        calc p.user_id = y.user_id := hxy
          _ < db.nextUserId := hplt y hy
          _ ≤ (findOrCreateUser db u).1.nextUserId := findOrCreateUser_nextUserId_le db u

theorem filter_eq_single_of_find? (ps : List ProdRec) (uid : Nat) (n : String)
    (p0 : ProdRec) (hkeys : ps.Pairwise keyDistinct)
    (hfp : ps.find? (keyB uid n) = some p0) : ps.filter (keyB uid n) = [p0] := by
  obtain ⟨hp0, l1, l2, rfl, hl1⟩ := find?_decomp _ _ _ hfp
  have hl1f : l1.filter (keyB uid n) = [] :=
    List.filter_eq_nil_iff.mpr (by intro a ha; simp [hl1 a ha])
  have hl2f : l2.filter (keyB uid n) = [] :=
    filter_tail_nil_of_pairwise keyDistinct (keyB uid n)
      (keyB_not_keyDistinct uid n) l1 l2 p0 hp0 hkeys
  rw [List.filter_append, hl1f, List.filter_cons]
  simp [hp0, hl2f]

/-- Characterization of one `add_product_to_website` call: the user
exists afterwards; exactly one row carries the key — the freshly inserted
one when the key was absent, the untouched pre-existing one otherwise —
and when the key was already present the call returns the database
unchanged (beyond the possible user creation, which cannot happen in that
case since the key's owner already exists). -/
theorem add_product_spec (db : DB) (u n d i p : String)
    (hkeys : db.products.Pairwise keyDistinct)
    (husers : ∀ x ∈ db.users, x.id < db.nextUserId)
    (hplt : ∀ q ∈ db.products, q.user_id < db.nextUserId) :
    findUser (add_product_to_website db u n d i p) u = some (findOrCreateUser db u).2 ∧
    (∃ r : ProdRec,
      (add_product_to_website db u n d i p).products.filter
        (keyB (findOrCreateUser db u).2.id n) = [r] ∧
      (db.products.filter (keyB (findOrCreateUser db u).2.id n) = [] →
        r.details = d ∧ r.price = p ∧
        r.image_path = some (if i != "" then basename i else "")) ∧
      (∀ r0, db.products.filter (keyB (findOrCreateUser db u).2.id n) = [r0] → r = r0)) ∧
    (∀ p0, findProduct db.products (findOrCreateUser db u).2.id n = some p0 →
      add_product_to_website db u n d i p = (findOrCreateUser db u).1) ∧
    (add_product_to_website db u n d i p).products.Pairwise keyDistinct ∧
    (∀ x ∈ (add_product_to_website db u n d i p).users,
      x.id < (add_product_to_website db u n d i p).nextUserId) ∧
    (∀ q ∈ (add_product_to_website db u n d i p).products,
      q.user_id < (add_product_to_website db u n d i p).nextUserId) := by
  have hprods := findOrCreateUser_products db u
  have hform : add_product_to_website db u n d i p =
      (match findProduct db.products (findOrCreateUser db u).2.id n with
       | some _ => (findOrCreateUser db u).1
       | none =>
           { (findOrCreateUser db u).1 with
               products := (findOrCreateUser db u).1.products ++
                 [⟨(findOrCreateUser db u).1.nextProductId, n, d, p,
                   some (if i != "" then basename i else ""),
                   (findOrCreateUser db u).2.id⟩]
               nextProductId := (findOrCreateUser db u).1.nextProductId + 1 }) := by
    simp only [add_product_to_website]
    rw [hprods]
  rw [hform]
  cases hfp : findProduct db.products (findOrCreateUser db u).2.id n with
  | none =>
      simp only
      have hrow : keyB (findOrCreateUser db u).2.id n
          (⟨(findOrCreateUser db u).1.nextProductId, n, d, p,
            some (if i != "" then basename i else ""),
            (findOrCreateUser db u).2.id⟩ : ProdRec) = true :=
        keyB_refl _ _ _ rfl rfl
      refine ⟨findUser_findOrCreateUser db u,
        ⟨⟨(findOrCreateUser db u).1.nextProductId, n, d, p,
          some (if i != "" then basename i else ""),
          (findOrCreateUser db u).2.id⟩, ?_, fun _ => ⟨rfl, rfl, rfl⟩, ?_⟩,
        ?_, ?_, ?_, ?_⟩
      · rw [hprods]
        exact filter_append_single _ _ _ _ hfp hrow
      · intro r0 hr0
        rw [filter_eq_nil_of_find?_none _ _ hfp] at hr0
        cases hr0
      · intro p0 hp0
        exact Option.noConfusion hp0
      · rw [hprods]
        exact pairwise_append_single _ _ _ _ hkeys hfp hrow
      · exact findOrCreateUser_user_ids db u husers
      · intro q hq
        rw [hprods] at hq
        rcases List.mem_append.mp hq with hq | hq
        · exact findOrCreateUser_prod_ids db u hplt q (by rw [hprods]; exact hq)
        · rw [List.mem_singleton] at hq
          subst hq
          exact findOrCreateUser_id_lt db u husers
  | some p0 =>
      simp only
      have hfil : db.products.filter (keyB (findOrCreateUser db u).2.id n) = [p0] :=
        filter_eq_single_of_find? _ _ _ _ hkeys hfp
      refine ⟨findUser_findOrCreateUser db u,
        ⟨p0, ?_, ?_, ?_⟩, ?_, ?_, ?_, ?_⟩
      · rw [hprods]
        exact hfil
      · intro hnil
        rw [hnil] at hfil
        cases hfil
      · intro r0 hr0
        rw [hfil] at hr0
        simpa using hr0
      · intro p0' hp0'
        trivial
      · rw [hprods]
        exact hkeys
      · exact findOrCreateUser_user_ids db u husers
      · intro q hq
        rw [hprods] at hq
        exact findOrCreateUser_prod_ids db u hplt q (by rw [hprods]; exact hq)

theorem keyProducts_empty_filter (db : DB) (u n : String)
    (hplt : ∀ q ∈ db.products, q.user_id < db.nextUserId)
    (h : keyProducts db u n = []) :
    db.products.filter (keyB (findOrCreateUser db u).2.id n) = [] := by
  unfold keyProducts at h
  cases hfu : findUser db u with
  | some u0 =>
      rw [hfu] at h
      rw [findOrCreateUser_of_found db u u0 hfu]
      exact h
  | none =>
      have hid : (findOrCreateUser db u).2.id = db.nextUserId := by
        unfold findOrCreateUser
        rw [hfu]
      rw [hid]
      apply List.filter_eq_nil_iff.mpr
      intro a ha hk
      obtain ⟨h1, _⟩ := keyB_eq _ _ _ hk
      exact absurd (h1 ▸ hplt a ha) (lt_irrefl _)

/-! ### Environment-setup lemmas for the pipelines -/

theorem run_promotion_selected (kick : CrewKind → Except PyErr String)
    (inputs : Inputs) (st : PipeState) :
    (run_promotion_pipeline kick inputs st).selected =
      (if pyOr inputs.product_image_path
          (pyOr inputs.image_path (envGetD (promoEnvSetup inputs st).env "image_path" "")) != ""
       then CrewKind.withImage else CrewKind.withoutImage) := by
  simp only [run_promotion_pipeline]
  split <;> rfl

theorem promoSetup_image_env (inputs : Inputs) (st : PipeState) :
    envGet (promoEnvSetup inputs st).env "image_path" =
      (if pyStrip (pyOr inputs.image_path inputs.product_image_path) != ""
       then some (copy_image_to_web_dir st.fs
          (pyStrip (pyOr inputs.image_path inputs.product_image_path))).2
       else envGet st.env "image_path") := by
  simp only [promoEnvSetup]
  repeat' split
  all_goals simp_all [envGet_envSet_self, envGet_envSet_ne]

theorem promoSetup_user_env (inputs : Inputs) (st : PipeState) :
    envGet (promoEnvSetup inputs st).env "user" =
      (if pyStrip (pyOr inputs.user inputs.user_name) != ""
       then some (pyStrip (pyOr inputs.user inputs.user_name))
       else envGet st.env "user") := by
  simp only [promoEnvSetup]
  repeat' split
  all_goals simp_all [envGet_envSet_self, envGet_envSet_ne]

theorem promoSetup_cost_env (inputs : Inputs) (st : PipeState) :
    envGet (promoEnvSetup inputs st).env "cost" =
      (if pyStrip (costVal inputs.cost) != ""
       then some (pyStrip (costVal inputs.cost))
       else envGet st.env "cost") := by
  simp only [promoEnvSetup]
  repeat' split
  all_goals simp_all [envGet_envSet_self, envGet_envSet_ne]

theorem promoSetup_product_name_env (inputs : Inputs) (st : PipeState) :
    envGet (promoEnvSetup inputs st).env "product_name" =
      (if pyStrip inputs.product_name != ""
       then some (pyStrip inputs.product_name)
       else envGet st.env "product_name") := by
  simp only [promoEnvSetup]
  repeat' split
  all_goals simp_all [envGet_envSet_self, envGet_envSet_ne]

theorem promoSetup_description_env (inputs : Inputs) (st : PipeState) :
    envGet (promoEnvSetup inputs st).env "product_description" =
      (if pyStrip (pyOr inputs.product_description inputs.product_details) != ""
       then some (pyStrip (pyOr inputs.product_description inputs.product_details))
       else envGet st.env "product_description") := by
  simp only [promoEnvSetup]
  repeat' split
  all_goals simp_all [envGet_envSet_self, envGet_envSet_ne]

theorem promoSetup_language_env (inputs : Inputs) (st : PipeState) :
    envGet (promoEnvSetup inputs st).env "language" =
      (if pyStrip inputs.language != ""
       then some (pyStrip inputs.language)
       else envGet st.env "language") := by
  simp only [promoEnvSetup]
  repeat' split
  all_goals simp_all [envGet_envSet_self, envGet_envSet_ne]

theorem promoSetup_user_story_env (inputs : Inputs) (st : PipeState) :
    envGet (promoEnvSetup inputs st).env "user_story" = envGet st.env "user_story" := by
  simp only [promoEnvSetup]
  repeat' split
  all_goals simp_all [envGet_envSet_self, envGet_envSet_ne]

theorem storySetup_user_env (inputs : Inputs) (st : PipeState) :
    envGet (storyEnvSetup inputs st).env "user" =
      (if pyStrip (pyOr inputs.user inputs.user_name) != ""
       then some (pyStrip (pyOr inputs.user inputs.user_name))
       else envGet st.env "user") := by
  simp only [storyEnvSetup]
  repeat' split
  all_goals simp_all [envGet_envSet_self, envGet_envSet_ne]

theorem storySetup_user_story_env (inputs : Inputs) (st : PipeState) :
    envGet (storyEnvSetup inputs st).env "user_story" =
      (if pyStrip inputs.user_story != ""
       then some (pyStrip inputs.user_story)
       else envGet st.env "user_story") := by
  simp only [storyEnvSetup]
  repeat' split
  all_goals simp_all [envGet_envSet_self, envGet_envSet_ne]

theorem storySetup_product_name_env (inputs : Inputs) (st : PipeState) :
    envGet (storyEnvSetup inputs st).env "product_name" =
      (if pyStrip inputs.product_name != ""
       then some (pyStrip inputs.product_name)
       else envGet st.env "product_name") := by
  simp only [storyEnvSetup]
  repeat' split
  all_goals simp_all [envGet_envSet_self, envGet_envSet_ne]

theorem storySetup_description_env (inputs : Inputs) (st : PipeState) :
    envGet (storyEnvSetup inputs st).env "product_description" =
      (if pyStrip (pyOr inputs.product_description inputs.product_details) != ""
       then some (pyStrip (pyOr inputs.product_description inputs.product_details))
       else envGet st.env "product_description") := by
  simp only [storyEnvSetup]
  repeat' split
  all_goals simp_all [envGet_envSet_self, envGet_envSet_ne]

theorem storySetup_language_env (inputs : Inputs) (st : PipeState) :
    envGet (storyEnvSetup inputs st).env "language" =
      (if pyStrip inputs.language != ""
       then some (pyStrip inputs.language)
       else envGet st.env "language") := by
  simp only [storyEnvSetup]
  repeat' split
  all_goals simp_all [envGet_envSet_self, envGet_envSet_ne]

theorem storySetup_cost_env (inputs : Inputs) (st : PipeState) :
    envGet (storyEnvSetup inputs st).env "cost" = envGet st.env "cost" := by
  simp only [storyEnvSetup]
  repeat' split
  all_goals simp_all [envGet_envSet_self, envGet_envSet_ne]

theorem run_promotion_crewVars (kick : CrewKind → Except PyErr String)
    (inputs : Inputs) (st : PipeState) :
    (run_promotion_pipeline kick inputs st).crewVars
      = crewVarsInit (promoEnvSetup inputs st).env := by
  simp only [run_promotion_pipeline]
  split <;> rfl

theorem run_story_crewVars (kick : CrewKind → Except PyErr String)
    (inputs : Inputs) (st : PipeState) :
    (run_story_advertising_pipeline kick inputs st).crewVars
      = crewVarsInit (storyEnvSetup inputs st).env := by
  simp only [run_story_advertising_pipeline]
  split <;> rfl

theorem copy_image_fs_mono (fs : FS) (p x : String) (hx : x ∈ fs) :
    x ∈ (copy_image_to_web_dir fs p).1 := by
  unfold copy_image_to_web_dir
  split
  · exact hx
  · exact List.mem_cons_of_mem _ hx

theorem promoSetup_fs_mono (inputs : Inputs) (st : PipeState) (x : String)
    (hx : x ∈ st.fs) : x ∈ (promoEnvSetup inputs st).fs := by
  simp only [promoEnvSetup]
  repeat' split
  all_goals first
    | exact hx
    | exact copy_image_fs_mono _ _ _ hx

theorem storySetup_fs_mono (inputs : Inputs) (st : PipeState) (x : String)
    (hx : x ∈ st.fs) : x ∈ (storyEnvSetup inputs st).fs := by
  simp only [storyEnvSetup]
  repeat' split
  all_goals first
    | exact hx
    | exact copy_image_fs_mono _ _ _ hx

theorem run_promotion_fs (kick : CrewKind → Except PyErr String)
    (inputs : Inputs) (st : PipeState) :
    (run_promotion_pipeline kick inputs st).state.fs = (promoEnvSetup inputs st).fs := by
  simp only [run_promotion_pipeline]
  split <;> rfl

theorem run_story_fs (kick : CrewKind → Except PyErr String)
    (inputs : Inputs) (st : PipeState) :
    (run_story_advertising_pipeline kick inputs st).state.fs
      = (storyEnvSetup inputs st).fs := by
  simp only [run_story_advertising_pipeline]
  split <;> rfl

theorem run_promotion_result (kick : CrewKind → Except PyErr String)
    (inputs : Inputs) (st : PipeState) :
    (run_promotion_pipeline kick inputs st).result
      = kick (run_promotion_pipeline kick inputs st).selected := by
  simp only [run_promotion_pipeline]
  split <;> simp_all

theorem run_story_result (kick : CrewKind → Except PyErr String)
    (inputs : Inputs) (st : PipeState) :
    (run_story_advertising_pipeline kick inputs st).result
      = kick (run_story_advertising_pipeline kick inputs st).selected := by
  simp only [run_story_advertising_pipeline]
  split <;> simp_all

theorem run_price_result (kick : CrewKind → Except PyErr String)
    (inputs : Inputs) (st : PipeState) :
    (run_price_generation_pipeline kick inputs st).result
      = kick (run_price_generation_pipeline kick inputs st).selected := by
  simp only [run_price_generation_pipeline]
  split <;> simp_all

theorem run_promotion_kickoffCalled (kick : CrewKind → Except PyErr String)
    (inputs : Inputs) (st : PipeState) :
    (run_promotion_pipeline kick inputs st).kickoffCalled = true := by
  simp only [run_promotion_pipeline]
  split <;> rfl

theorem run_story_kickoffCalled (kick : CrewKind → Except PyErr String)
    (inputs : Inputs) (st : PipeState) :
    (run_story_advertising_pipeline kick inputs st).kickoffCalled = true := by
  simp only [run_story_advertising_pipeline]
  split <;> rfl

theorem run_price_kickoffCalled (kick : CrewKind → Except PyErr String)
    (inputs : Inputs) (st : PipeState) :
    (run_price_generation_pipeline kick inputs st).kickoffCalled = true := by
  simp only [run_price_generation_pipeline]
  split <;> rfl

theorem veoSimplePoll_never (done getRaises : Nat → Bool)
    (hnever : ∀ k, done k = false) :
    ∀ fuel i, veoSimplePoll done getRaises fuel i = false := by
  intro fuel
  induction fuel with
  | zero => intro i; exact hnever i
  | succ fuel ih =>
      intro i
      rw [veoSimplePoll, hnever i]
      simp only [Bool.false_eq_true, if_false]
      split
      · rfl
      · exact ih (i + 1)

theorem veoPoll_never (done : Nat → Bool) (hnever : ∀ k, done k = false) :
    ∀ fuel i, veoPoll done fuel i = none := by
  intro fuel
  induction fuel with
  | zero => intro i; rfl
  | succ fuel ih =>
      intro i
      rw [veoPoll, hnever i]
      simp only [Bool.false_eq_true, if_false]
      exact ih (i + 1)

theorem customToolPollAux_timeout (done : Nat → Bool) (hnever : ∀ k, done k = false) :
    ∀ fuel i, (∃ j, j < fuel ∧ 900 < (i + j) * 10) →
      customToolPollAux done 10 900 fuel i
        = some (Except.error (PyErr.timeoutError "Veo video generation timed out")) := by
  intro fuel
  induction fuel with
  | zero =>
      rintro i ⟨j, hj, _⟩
      omega
  | succ fuel ih =>
      rintro i ⟨j, hj, hjt⟩
      rw [customToolPollAux, hnever i]
      simp only [Bool.false_eq_true, if_false]
      by_cases hti : 900 < i * 10
      · simp [hti]
      · rw [if_neg hti]
        have hj0 : j ≠ 0 := by
          rintro rfl
          omega
        exact ih (i + 1) ⟨j - 1, by omega, by omega⟩

/-! ### String lemmas: stripping and digit strings -/

theorem dropWhile_eq_self_of_none {α} (p : α → Bool) (l : List α)
    (h : ∀ c ∈ l, p c = false) : l.dropWhile p = l := by
  cases l with
  | nil => rfl
  | cons a t =>
      rw [List.dropWhile_cons_of_neg]
      simp [h a (by simp)]

theorem dropWhile_head_false {w : Char → Bool} {a : Char} {rest : List Char}
    (h : (a :: rest).dropWhile w = a :: rest) : w a = false := by
  by_contra hwa
  rw [Bool.not_eq_false] at hwa
  rw [List.dropWhile_cons_of_pos hwa] at h
  have hle := (List.dropWhile_suffix (l := rest) w).sublist.length_le
  rw [h] at hle
  simp at hle

theorem dropWhile_eq_self_of_prefix {w : Char → Bool} {l₁ l₂ : List Char}
    (hp : l₁ <+: l₂) (h2 : l₂.dropWhile w = l₂) : l₁.dropWhile w = l₁ := by
  cases l₁ with
  | nil => rfl
  | cons a t =>
      obtain ⟨r, hr⟩ := hp
      have h2' : (a :: (t ++ r)).dropWhile w = a :: (t ++ r) := by
        have : a :: (t ++ r) = l₂ := by
          rw [← hr]
          rfl
        rw [this]
        exact h2
      have hwa := dropWhile_head_false h2'
      rw [List.dropWhile_cons_of_neg (by simp [hwa])]

theorem pyStrip_eq_self_of_no_ws (s : String)
    (h : ∀ c ∈ s.data, c.isWhitespace = false) : pyStrip s = s := by
  have h1 : s.data.dropWhile Char.isWhitespace = s.data :=
    dropWhile_eq_self_of_none _ _ h
  have h2 : s.data.reverse.dropWhile Char.isWhitespace = s.data.reverse :=
    dropWhile_eq_self_of_none _ _ (by intro c hc; exact h c (by simpa using hc))
  show String.mk (((s.data.dropWhile Char.isWhitespace).reverse.dropWhile
      Char.isWhitespace).reverse) = s
  rw [h1, h2]
  simp

theorem pyStrip_idem (s : String) : pyStrip (pyStrip s) = pyStrip s := by
  have hm : (pyStrip s).data
      = List.rdropWhile Char.isWhitespace (s.data.dropWhile Char.isWhitespace) := rfl
  have hidem1 : (s.data.dropWhile Char.isWhitespace).dropWhile Char.isWhitespace
      = s.data.dropWhile Char.isWhitespace := List.dropWhile_idempotent _ _
  have hpre : (pyStrip s).data <+: s.data.dropWhile Char.isWhitespace := by
    rw [hm]
    exact List.rdropWhile_prefix _ _
  have hdw : (pyStrip s).data.dropWhile Char.isWhitespace = (pyStrip s).data :=
    dropWhile_eq_self_of_prefix hpre hidem1
  show String.mk ((((pyStrip s).data.dropWhile Char.isWhitespace).reverse.dropWhile
      Char.isWhitespace).reverse) = pyStrip s
  rw [hdw]
  show String.mk (List.rdropWhile Char.isWhitespace (pyStrip s).data) = pyStrip s
  rw [hm, List.rdropWhile_idempotent]
  rfl

theorem ne_empty_of_pyStrip_ne (s : String) (h : pyStrip s ≠ "") : s ≠ "" := by
  intro hs
  rw [hs] at h
  exact h rfl

theorem pyOr_self (a : String) : pyOr a a = a := by
  unfold pyOr
  split <;> rfl

theorem digitChar_not_ws (m : Nat) : (Nat.digitChar m).isWhitespace = false := by
  unfold Nat.digitChar
  by_cases h0 : m = 0
  · subst h0; decide
  rw [if_neg h0]
  by_cases h1 : m = 1
  · subst h1; decide
  rw [if_neg h1]
  by_cases h2 : m = 2
  · subst h2; decide
  rw [if_neg h2]
  by_cases h3 : m = 3
  · subst h3; decide
  rw [if_neg h3]
  by_cases h4 : m = 4
  · subst h4; decide
  rw [if_neg h4]
  by_cases h5 : m = 5
  · subst h5; decide
  rw [if_neg h5]
  by_cases h6 : m = 6
  · subst h6; decide
  rw [if_neg h6]
  by_cases h7 : m = 7
  · subst h7; decide
  rw [if_neg h7]
  by_cases h8 : m = 8
  · subst h8; decide
  rw [if_neg h8]
  by_cases h9 : m = 9
  · subst h9; decide
  rw [if_neg h9]
  by_cases h10 : m = 10
  · subst h10; decide
  rw [if_neg h10]
  by_cases h11 : m = 11
  · subst h11; decide
  rw [if_neg h11]
  by_cases h12 : m = 12
  · subst h12; decide
  rw [if_neg h12]
  by_cases h13 : m = 13
  · subst h13; decide
  rw [if_neg h13]
  by_cases h14 : m = 14
  · subst h14; decide
  rw [if_neg h14]
  by_cases h15 : m = 15
  · subst h15; decide
  rw [if_neg h15]
  decide

theorem toDigitsCore_no_ws (b : Nat) :
    ∀ (fuel n : Nat) (ds : List Char), (∀ c ∈ ds, c.isWhitespace = false) →
      ∀ c ∈ Nat.toDigitsCore b fuel n ds, c.isWhitespace = false := by
  intro fuel
  induction fuel with
  | zero =>
      intro n ds hds c hc
      exact hds c hc
  | succ fuel ih =>
      intro n ds hds c hc
      rw [Nat.toDigitsCore] at hc
      have hcons : ∀ x ∈ Nat.digitChar (n % b) :: ds, x.isWhitespace = false := by
        intro x hx
        rcases List.mem_cons.mp hx with rfl | hx
        · exact digitChar_not_ws _
        · exact hds x hx
      split at hc
      · exact hcons c hc
      · exact ih (n / b) _ hcons c hc

theorem toDigitsCore_length_le (b : Nat) :
    ∀ (fuel n : Nat) (ds : List Char),
      ds.length ≤ (Nat.toDigitsCore b fuel n ds).length := by
  intro fuel
  induction fuel with
  | zero => intro n ds; exact le_refl _
  | succ fuel ih =>
      intro n ds
      rw [Nat.toDigitsCore]
      split
      · simp
      · calc ds.length ≤ (Nat.digitChar (n % b) :: ds).length := by simp
          _ ≤ _ := ih (n / b) _

theorem toString_nat_data (n : Nat) : (toString n).data = Nat.toDigits 10 n := rfl

theorem pyStrip_toString_nat (n : Nat) : pyStrip (toString n) = toString n := by
  apply pyStrip_eq_self_of_no_ws
  rw [toString_nat_data]
  exact toDigitsCore_no_ws 10 (n + 1) n [] (by simp)

theorem toString_nat_ne_empty (n : Nat) : toString n ≠ "" := by
  intro h
  have hd : (toString n).data = [] := by
    rw [h]
  rw [toString_nat_data] at hd
  unfold Nat.toDigits at hd
  have hlen := toDigitsCore_length_le 10 (n + 1) n []
  rw [Nat.toDigitsCore] at hd
  split at hd
  · exact List.noConfusion hd
  · have := toDigitsCore_length_le 10 n (n / 10) [Nat.digitChar (n % 10)]
    rw [hd] at this
    simp at this

theorem run_promotion_db_on_ok (kick : CrewKind → Except PyErr String) (res : String)
    (hkick : ∀ c, kick c = Except.ok res) (inputs : Inputs) (st : PipeState) :
    (run_promotion_pipeline kick inputs st).state.db =
      (if pyStrip (pyOr inputs.user inputs.user_name) != "" &&
          pyStrip inputs.product_name != "" &&
          pyStrip (pyOr inputs.product_description inputs.product_details) != ""
       then add_product_to_website st.db
              (pyStrip (pyOr inputs.user inputs.user_name))
              (pyStrip inputs.product_name)
              (pyStrip (pyOr inputs.product_description inputs.product_details))
              (envGetD (promoEnvSetup inputs st).env "image_path" "")
              (envGetD (promoEnvSetup inputs st).env "cost" "0")
       else st.db) := by
  have hdb : (promoEnvSetup inputs st).db = st.db := rfl
  simp only [run_promotion_pipeline, hkick]
  rw [hdb]

theorem parse_cost_digits (cost : String) (h : pyIsdigit cost = true) :
    pyParseCost cost = pyInt cost := by
  unfold pyParseCost
  have h0 : (cost != "") = true := by
    unfold pyIsdigit at h
    exact (Bool.and_eq_true _ _ |>.mp h).1
  rw [if_pos]
  rw [h0, h]
  rfl

theorem parse_cost_nondigits (cost : String) (h : pyIsdigit cost = false) :
    pyParseCost cost = 0 := by
  unfold pyParseCost
  rw [if_neg]
  rw [h]
  simp

theorem promoSetup_cost_value (inputs : Inputs) (st : PipeState) (n : Nat)
    (hc : inputs.cost = some n) (henv : envGet st.env "cost" = none) :
    envGetD (promoEnvSetup inputs st).env "cost" "0" = toString n := by
  unfold envGetD
  rw [promoSetup_cost_env, hc]
  by_cases h0 : n = 0
  · subst h0
    simp [costVal, pyStrip, henv]
    rfl
  · have hval : costVal (some n) = toString n := by
      simp [costVal, h0]
    rw [hval, pyStrip_toString_nat]
    simp [toString_nat_ne_empty n]

theorem promoSetup_image_value_empty (inputs : Inputs) (st : PipeState)
    (h1 : inputs.image_path = "") (h2 : inputs.product_image_path = "")
    (henv : envGet st.env "image_path" = none) :
    envGetD (promoEnvSetup inputs st).env "image_path" "" = "" := by
  unfold envGetD
  rw [promoSetup_image_env, h1, h2]
  simp [pyOr, pyStrip, henv]

theorem keyProducts_add_empty (u pn td ip pr : String) :
    keyProducts (add_product_to_website emptyDB u pn td ip pr) u pn
      = [⟨1, pn, td, pr, some (if ip != "" then basename ip else ""), 1⟩] := by
  simp [add_product_to_website, findOrCreateUser, findUser, emptyDB, List.find?,
    findProduct, keyProducts, keyB, List.filter]

theorem full_promotion_ui_no_validation (kick : CrewKind → Except PyErr String)
    (st : PipeState) (u pn cost td lang : String)
    (hu : u ≠ "") (hn : pn ≠ "") (hd : td ≠ "") :
    (full_promotion_ui kick st u pn cost td "" lang).pipelineCalled = true ∧
    (full_promotion_ui kick st u pn cost td "" lang).state
      = (run_promotion_pipeline kick
          { user := pyStrip u, user_name := pyStrip u, cost := some (pyParseCost cost),
            product_name := pyStrip pn, product_details := pyStrip td,
            product_description := pyStrip td,
            product_image_path := "", image_path := "", language := lang }
          st).state := by
  have hcond : (u == "" || pn == "" || td == "") = false := by
    simp [hu, hn, hd]
  have hsave : save_file st.fs "" IMAGES_DIR "promo_image" = (st.fs, "") := by
    simp [save_file]
  constructor
  · simp only [full_promotion_ui, hcond, Bool.false_eq_true, if_false, hsave]
    split <;> rfl
  · simp only [full_promotion_ui, hcond, Bool.false_eq_true, if_false, hsave]
    split <;> rfl

/-! ### Claim theorems -/

/-- C2: for every pair of storefront upsert calls with the same
`(owner username, product name)` key, exactly one product row exists for
that key afterwards; its details and price are the second call's values,
and its image path is overwritten only if the second call supplied a new
image (otherwise it keeps the value left by the first call). -/
theorem upload_product_upsert_idempotent (db : DB) (hWF : WF db)
    (u n d1 p1 d2 p2 : String) (i1 i2 : Option String) :
    ∃ r2 : ProdRec,
      keyProducts (upload_product (upload_product db u n d1 p1 i1) u n d2 p2 i2) u n
          = [r2] ∧
      r2.details = d2 ∧ r2.price = p2 ∧
      (∀ ip, uploadImagePath u n i2 = some ip → r2.image_path = some ip) ∧
      (uploadImagePath u n i2 = none →
        ∃ r1, keyProducts (upload_product db u n d1 p1 i1) u n = [r1] ∧
          r2.image_path = r1.image_path) := by
  obtain ⟨hfu1, ⟨r1, hfil1, _, _, _⟩, hkeys1, husers1, hplt1⟩ :=
    upload_product_spec db u n d1 p1 i1 hWF.keys_nodup hWF.user_ids_lt hWF.prod_user_ids_lt
  have hfoc1 : findOrCreateUser (upload_product db u n d1 p1 i1) u
      = (upload_product db u n d1 p1 i1, (findOrCreateUser db u).2) :=
    findOrCreateUser_of_found _ _ _ hfu1
  obtain ⟨hfu2, ⟨r2, hfil2, hd2, hp2, hi2⟩, _, _, _⟩ :=
    upload_product_spec (upload_product db u n d1 p1 i1) u n d2 p2 i2 hkeys1 husers1 hplt1
  rw [hfoc1] at hfu2 hfil2 hi2
  refine ⟨r2, ?_, hd2, hp2, ?_, ?_⟩
  · unfold keyProducts
    rw [hfu2]
    exact hfil2
  · intro ip hip
    rw [hip] at hi2
    exact hi2
  · intro hnone
    rw [hnone, hfil1] at hi2
    refine ⟨r1, ?_, ?_⟩
    · unfold keyProducts
      rw [hfu1]
      exact hfil1
    · exact hi2

/-- C2 witness: the spec's own example — `upsert("alice","Mug","v1","10")`
then `upsert("alice","Mug","v2","12")` on an empty catalog. -/
theorem upload_product_upsert_idempotent_witness :
    ∃ r2 : ProdRec,
      keyProducts (upload_product (upload_product emptyDB "alice" "Mug" "v1" "10" none)
          "alice" "Mug" "v2" "12" none) "alice" "Mug" = [r2] ∧
      r2.details = "v2" ∧ r2.price = "12" ∧
      (∀ ip, uploadImagePath "alice" "Mug" none = some ip → r2.image_path = some ip) ∧
      (uploadImagePath "alice" "Mug" none = none →
        ∃ r1, keyProducts (upload_product emptyDB "alice" "Mug" "v1" "10" none)
            "alice" "Mug" = [r1] ∧ r2.image_path = r1.image_path) :=
  upload_product_upsert_idempotent emptyDB
    ⟨by simp [emptyDB], by simp [emptyDB], by simp [emptyDB], by simp [emptyDB]⟩
    "alice" "Mug" "v1" "10" "v2" "12" none none

/-- C3 (amended): the catalog write performed on successful completion,
`add_product_to_website`, is insert-only: when no row exists for the
`(user_name, product_name)` key it inserts one storing the details, the
price string, and the *basename* of the resolved image path; when a row
already exists, the call — and hence a second completed run with the same
key — leaves the database entirely unchanged (no update, no duplicate;
exactly one row for the key remains). -/
theorem add_product_insert_only (db : DB) (hWF : WF db)
    (u n d1 i1 p1 d2 i2 p2 : String) :
    add_product_to_website (add_product_to_website db u n d1 i1 p1) u n d2 i2 p2
      = add_product_to_website db u n d1 i1 p1 ∧
    ∃ r : ProdRec,
      keyProducts (add_product_to_website db u n d1 i1 p1) u n = [r] ∧
      (keyProducts db u n = [] →
        r.details = d1 ∧ r.price = p1 ∧
        r.image_path = some (if i1 != "" then basename i1 else "")) ∧
      (∀ r0, keyProducts db u n = [r0] → r = r0) := by
  obtain ⟨hfu1, ⟨r, hfil1, hnew, hold⟩, _, hkeys1, husers1, hplt1⟩ :=
    add_product_spec db u n d1 i1 p1 hWF.keys_nodup hWF.user_ids_lt hWF.prod_user_ids_lt
  obtain ⟨_, _, hnoop2, _, _, _⟩ :=
    add_product_spec (add_product_to_website db u n d1 i1 p1) u n d2 i2 p2
      hkeys1 husers1 hplt1
  have hfoc1 := findOrCreateUser_of_found _ _ _ hfu1
  rw [hfoc1] at hnoop2
  have hfind1 : findProduct (add_product_to_website db u n d1 i1 p1).products
      (findOrCreateUser db u).2.id n = some r := by
    unfold findProduct
    rw [find?_eq_head?_filter, hfil1]
    rfl
  constructor
  · exact (hnoop2 r hfind1).trans rfl
  · refine ⟨r, ?_, ?_, ?_⟩
    · unfold keyProducts
      rw [hfu1]
      exact hfil1
    · intro hempty
      exact hnew (keyProducts_empty_filter db u n hWF.prod_user_ids_lt hempty)
    · intro r0 h0
      apply hold
      unfold keyProducts at h0
      cases hfu0 : findUser db u with
      | some u0 =>
          rw [hfu0] at h0
          rw [findOrCreateUser_of_found db u u0 hfu0]
          exact h0
      | none =>
          rw [hfu0] at h0
          simp at h0

/-- C3 amended witness: two completed inserts for `(alice, Mug)` on an
empty catalog. -/
theorem add_product_insert_only_witness :
    add_product_to_website (add_product_to_website emptyDB "alice" "Mug" "v1" "img/a.png" "10")
        "alice" "Mug" "v2" "" "12"
      = add_product_to_website emptyDB "alice" "Mug" "v1" "img/a.png" "10" ∧
    ∃ r : ProdRec,
      keyProducts (add_product_to_website emptyDB "alice" "Mug" "v1" "img/a.png" "10")
          "alice" "Mug" = [r] ∧
      (keyProducts emptyDB "alice" "Mug" = [] →
        r.details = "v1" ∧ r.price = "10" ∧
        r.image_path = some (if "img/a.png" != "" then basename "img/a.png" else "")) ∧
      (∀ r0, keyProducts emptyDB "alice" "Mug" = [r0] → r = r0) :=
  add_product_insert_only emptyDB
    ⟨by simp [emptyDB], by simp [emptyDB], by simp [emptyDB], by simp [emptyDB]⟩
    "alice" "Mug" "v1" "img/a.png" "10" "v2" "" "12"

/-- C1 (counterexample): a `full_promotion` request whose `user_name` is
empty does *not* fail with `MissingFieldError` — `run_promotion_pipeline`
performs no validation at all: the crew kickoff (the adapter-calling
chain) is invoked and the run completes normally. -/
theorem promo_run_empty_user_no_validation :
    (run_promotion_pipeline kickOkDone
      { product_name := "Mug", product_details := "a handmade mug" } freshState).kickoffCalled
        = true ∧
    (run_promotion_pipeline kickOkDone
      { product_name := "Mug", product_details := "a handmade mug" } freshState).result
        = Except.ok "done" :=
  ⟨rfl, rfl⟩

/-- C3 (counterexample): after a completed `full_promotion` run for
`(alice, Mug)` with details `"v1"`/price `10`, a second completed run for
the same key with details `"v2"`/price `12` leaves the existing catalog
row unchanged (details `"v1"`, price `"10"`): `add_product_to_website`
never updates an existing `(user, product)` row. -/
theorem pipeline_second_run_does_not_update :
    (run_promotion_pipeline kickOkDone promoInputsV2
      (run_promotion_pipeline kickOkDone promoInputsV1 freshState).state).result
        = Except.ok "done" ∧
    keyProducts
      (run_promotion_pipeline kickOkDone promoInputsV2
        (run_promotion_pipeline kickOkDone promoInputsV1 freshState).state).state.db
      "alice" "Mug"
        = [⟨1, "Mug", "v1", "10", some "", 1⟩] :=
  ⟨rfl, rfl⟩

/-- C4 (counterexample): a `full_promotion` request whose
`product_image_path` is non-empty but names a *non-existent* file selects
the with-image chain, not the without-image chain: selection tests only
truthiness, never file existence. -/
theorem with_image_selected_for_missing_file :
    fsExists freshState.fs "/missing/photo.png" = false ∧
    (run_promotion_pipeline kickOkDone
      { user := "alice", product_name := "Mug", product_details := "v1",
        product_image_path := "/missing/photo.png" } freshState).selected
        = CrewKind.withImage :=
  ⟨rfl, rfl⟩

/-- C4 (amended): chain selection for `full_promotion` tests only
truthiness.  Starting from an environment with no `image_path` binding,
the with-image chain is selected iff the request's `product_image_path`
or `image_path` field is non-empty — whether or not the named file
exists. -/
theorem chain_selection_by_truthiness (kick : CrewKind → Except PyErr String)
    (inputs : Inputs) (st : PipeState)
    (henv : envGet st.env "image_path" = none) :
    (run_promotion_pipeline kick inputs st).selected
      = (if inputs.product_image_path != "" || inputs.image_path != ""
         then CrewKind.withImage else CrewKind.withoutImage) := by
  rw [run_promotion_selected]
  by_cases hp : inputs.product_image_path = ""
  · by_cases hi : inputs.image_path = ""
    · have himg : pyStrip (pyOr inputs.image_path inputs.product_image_path) = "" := by
        simp [pyOr, hi, hp, pyStrip]
      simp only [envGetD]
      simp only [promoSetup_image_env, himg]
      simp [pyOr, hp, hi, henv]
    · simp [pyOr, hp, hi]
  · simp [pyOr, hp]

/-- C4 amended witness: a non-empty path to a non-existent file still
selects the with-image chain. -/
theorem chain_selection_by_truthiness_witness :
    (run_promotion_pipeline kickOkDone
      { user := "alice", product_name := "Mug", product_details := "v1",
        product_image_path := "/missing/photo.png" } freshState).selected
      = (if ("/missing/photo.png" : String) != "" || ("" : String) != ""
         then CrewKind.withImage else CrewKind.withoutImage) :=
  chain_selection_by_truthiness kickOkDone
    { user := "alice", product_name := "Mug", product_details := "v1",
      product_image_path := "/missing/photo.png" } freshState rfl

/-- C5 (counterexample): with an operation that never reports
`done=True`, `generate_video_with_veo_simple` exceeds its 300-second
budget and returns a *fallback video* in a normal `.ok` result instead of
raising `TimeoutError`, while `generate_video_with_veo` (which has no
budget at all) is still polling after 40 checks. -/
theorem video_timeout_returns_fallback :
    (generate_video_with_veo_simple simpleNeverDoneEnv ["img.png"]).2
        = Except.ok (FALLBACK_VIDEO, "img.png") ∧
    generate_video_with_veo veoNeverDoneEnv ["img.png"] (some "img.png") 40 = none :=
  ⟨rfl, rfl⟩

/-- C8 (counterexample): when the external video-generation call raises
inside `generate_video_with_veo_simple`, the exception is *not*
propagated: the tool returns a substitute fallback video in an `.ok`
result, so the chain is not aborted at that step. -/
theorem veo_simple_swallows_exception :
    simpleRaisingEnv.genVideosRaises = some (PyErr.externalError "boom") ∧
    (generate_video_with_veo_simple simpleRaisingEnv [FALLBACK_VIDEO, "img.png"]).2
        = Except.ok (FALLBACK_VIDEO, "") :=
  ⟨rfl, rfl⟩

/-- C9 (counterexample): after a *completed* `full_promotion` run both
the user-supplied image and the media file generated during the run (the
web-directory copy) still exist — no cleanup deletes them. -/
theorem full_promotion_preserves_media :
    (run_promotion_pipeline kickOkDone
      { user := "alice", product_name := "Mug", product_details := "v1",
        image_path := "imgs/mug.png" } ⟨[], ["imgs/mug.png"], emptyDB⟩).result
        = Except.ok "done" ∧
    fsExists
      (run_promotion_pipeline kickOkDone
        { user := "alice", product_name := "Mug", product_details := "v1",
          image_path := "imgs/mug.png" } ⟨[], ["imgs/mug.png"], emptyDB⟩).state.fs
      "shop_data/static/uploads/mug.png" = true ∧
    fsExists
      (run_promotion_pipeline kickOkDone
        { user := "alice", product_name := "Mug", product_details := "v1",
          image_path := "imgs/mug.png" } ⟨[], ["imgs/mug.png"], emptyDB⟩).state.fs
      "imgs/mug.png" = true :=
  ⟨rfl, rfl, rfl⟩

/-- C9 (amended): no cleanup step exists — every file present before a
run is still present after it, for `full_promotion` and `story` alike
(both `finally` blocks are no-ops, so media is preserved in both cases). -/
theorem no_cleanup_either_pipeline (kick : CrewKind → Except PyErr String)
    (inputs : Inputs) (st : PipeState) (x : String) (hx : x ∈ st.fs) :
    x ∈ (run_promotion_pipeline kick inputs st).state.fs ∧
    x ∈ (run_story_advertising_pipeline kick inputs st).state.fs := by
  rw [run_promotion_fs, run_story_fs]
  exact ⟨promoSetup_fs_mono inputs st x hx, storySetup_fs_mono inputs st x hx⟩

/-- C9 amended witness: a user image survives both runs. -/
theorem no_cleanup_either_pipeline_witness :
    "imgs/mug.png" ∈ (run_promotion_pipeline kickOkDone promoInputsV1
        ⟨[], ["imgs/mug.png"], emptyDB⟩).state.fs ∧
    "imgs/mug.png" ∈ (run_story_advertising_pipeline kickOkDone promoInputsV1
        ⟨[], ["imgs/mug.png"], emptyDB⟩).state.fs :=
  no_cleanup_either_pipeline kickOkDone promoInputsV1
    ⟨[], ["imgs/mug.png"], emptyDB⟩ "imgs/mug.png" (by simp)

/-- C10: the crew constructor replaces each environment variable that is
absent by its fixed non-empty default (`user` → "the user", `cost` →
"the cost", `product_name` → "our amazing product",
`product_description` → "a detailed product description", `user_story` →
"their personal journey and challenges", `language` → "English"), and on
any run started from an empty environment the chain steps observe a
non-empty value for each of these six fields no matter which inputs the
caller omitted. -/
theorem crew_env_defaults :
    (∀ env : Env,
      (envGet env "user" = none → (crewVarsInit env).user = "the user") ∧
      (envGet env "cost" = none → (crewVarsInit env).cost = "the cost") ∧
      (envGet env "product_name" = none →
        (crewVarsInit env).product_name = "our amazing product") ∧
      (envGet env "product_description" = none →
        (crewVarsInit env).product_description = "a detailed product description") ∧
      (envGet env "user_story" = none →
        (crewVarsInit env).user_story = "their personal journey and challenges") ∧
      (envGet env "language" = none → (crewVarsInit env).language = "English")) ∧
    (∀ (kick : CrewKind → Except PyErr String) (inputs : Inputs) (fs : FS) (db : DB),
      (run_promotion_pipeline kick inputs ⟨[], fs, db⟩).crewVars.user ≠ "" ∧
      (run_promotion_pipeline kick inputs ⟨[], fs, db⟩).crewVars.cost ≠ "" ∧
      (run_promotion_pipeline kick inputs ⟨[], fs, db⟩).crewVars.product_name ≠ "" ∧
      (run_promotion_pipeline kick inputs ⟨[], fs, db⟩).crewVars.product_description ≠ "" ∧
      (run_promotion_pipeline kick inputs ⟨[], fs, db⟩).crewVars.user_story ≠ "" ∧
      (run_promotion_pipeline kick inputs ⟨[], fs, db⟩).crewVars.language ≠ "") ∧
    (∀ (kick : CrewKind → Except PyErr String) (inputs : Inputs) (fs : FS) (db : DB),
      (run_story_advertising_pipeline kick inputs ⟨[], fs, db⟩).crewVars.user ≠ "" ∧
      (run_story_advertising_pipeline kick inputs ⟨[], fs, db⟩).crewVars.cost ≠ "" ∧
      (run_story_advertising_pipeline kick inputs ⟨[], fs, db⟩).crewVars.product_name ≠ "" ∧
      (run_story_advertising_pipeline kick inputs ⟨[], fs, db⟩).crewVars.product_description
        ≠ "" ∧
      (run_story_advertising_pipeline kick inputs ⟨[], fs, db⟩).crewVars.user_story ≠ "" ∧
      (run_story_advertising_pipeline kick inputs ⟨[], fs, db⟩).crewVars.language ≠ "") := by
  refine ⟨?_, ?_, ?_⟩
  · intro env
    refine ⟨?_, ?_, ?_, ?_, ?_, ?_⟩ <;>
      · intro h
        simp [crewVarsInit, envGetD, h]
  · intro kick inputs fs db
    rw [run_promotion_crewVars]
    refine ⟨?_, ?_, ?_, ?_, ?_, ?_⟩
    · simp only [crewVarsInit, envGetD, promoSetup_user_env]
      split <;> simp_all [envGet]
    · simp only [crewVarsInit, envGetD, promoSetup_cost_env]
      split <;> simp_all [envGet]
    · simp only [crewVarsInit, envGetD, promoSetup_product_name_env]
      split <;> simp_all [envGet]
    · simp only [crewVarsInit, envGetD, promoSetup_description_env]
      split <;> simp_all [envGet]
    · simp only [crewVarsInit, envGetD, promoSetup_user_story_env]
      simp [envGet]
    · simp only [crewVarsInit, envGetD, promoSetup_language_env]
      split <;> simp_all [envGet]
  · intro kick inputs fs db
    rw [run_story_crewVars]
    refine ⟨?_, ?_, ?_, ?_, ?_, ?_⟩
    · simp only [crewVarsInit, envGetD, storySetup_user_env]
      split <;> simp_all [envGet]
    · simp only [crewVarsInit, envGetD, storySetup_cost_env]
      simp [envGet]
    · simp only [crewVarsInit, envGetD, storySetup_product_name_env]
      split <;> simp_all [envGet]
    · simp only [crewVarsInit, envGetD, storySetup_description_env]
      split <;> simp_all [envGet]
    · simp only [crewVarsInit, envGetD, storySetup_user_story_env]
      split <;> simp_all [envGet]
    · simp only [crewVarsInit, envGetD, storySetup_language_env]
      split <;> simp_all [envGet]

/-- C10 witness: empty environment and a request with every field
omitted. -/
theorem crew_env_defaults_witness :
    (crewVarsInit []).user = "the user" ∧
    (run_promotion_pipeline kickOkDone {} ⟨[], [], emptyDB⟩).crewVars.user ≠ "" ∧
    (run_story_advertising_pipeline kickOkDone {} ⟨[], [], emptyDB⟩).crewVars.user_story
      ≠ "" :=
  ⟨(crew_env_defaults.1 []).1 rfl,
   (crew_env_defaults.2.1 kickOkDone {} [] emptyDB).1,
   (crew_env_defaults.2.2 kickOkDone {} [] emptyDB).2.2.2.2.1⟩

/-- C5 (amended): with an operation that never reports `done=True`,
`generate_video_with_veo` never returns (its loop has no budget), and
`generate_video_with_veo_simple` stops after its 300-second budget but
returns a fallback video in a normal result instead of raising; the only
budgeted loop that raises `TimeoutError` is the one in
`custom_tool.VeoVideoGenerator._run` (here with the default 10-second
interval and 900-second budget), which the crews do not use. -/
theorem veo_polling_no_timeout_error (done : Nat → Bool)
    (hnever : ∀ k, done k = false) :
    (∀ fuel i, veoPoll done fuel i = none) ∧
    (∀ (c : VeoSimpleEnv) (fs : FS),
      c.hasApiKey = true → c.clientAvailable = true → c.genVideosRaises = none →
      c.opDone = done → c.envImagePath ≠ "" → fsExists fs c.envImagePath = true →
      (generate_video_with_veo_simple c fs).2
        = Except.ok ((create_fallback_video c.ffmpegOk fs).2, c.envImagePath)) ∧
    customToolPoll done 10 900
      = some (Except.error (PyErr.timeoutError "Veo video generation timed out")) := by
  refine ⟨veoPoll_never done hnever, ?_, ?_⟩
  · intro c fs hA hC hg hdone hip hfs
    have hpoll : veoSimplePoll c.opDone c.opGetRaises 30 0 = false := by
      rw [hdone]
      exact veoSimplePoll_never done c.opGetRaises hnever 30 0
    simp [generate_video_with_veo_simple, hA, hC, hip, hfs, veoSimpleVideoPhase, hg, hpoll]
  · unfold customToolPoll
    have h92 : 900 / max 10 1 + 2 = 92 := by norm_num
    rw [h92]
    exact customToolPollAux_timeout done hnever 92 0 ⟨91, by omega, by omega⟩

/-- C5 amended witness: the never-completing operation. -/
theorem veo_polling_no_timeout_error_witness :
    veoPoll (fun _ => false) 7 0 = none ∧
    (generate_video_with_veo_simple simpleNeverDoneEnv ["img.png"]).2
      = Except.ok ((create_fallback_video simpleNeverDoneEnv.ffmpegOk ["img.png"]).2,
          simpleNeverDoneEnv.envImagePath) ∧
    customToolPoll (fun _ => false) 10 900
      = some (Except.error (PyErr.timeoutError "Veo video generation timed out")) :=
  ⟨(veo_polling_no_timeout_error (fun _ => false) (fun _ => rfl)).1 7 0,
   (veo_polling_no_timeout_error (fun _ => false) (fun _ => rfl)).2.1 simpleNeverDoneEnv
     ["img.png"] rfl rfl rfl rfl (by decide) rfl,
   (veo_polling_no_timeout_error (fun _ => false) (fun _ => rfl)).2.2⟩

/-- C8 (amended): an exception from the crew kickoff is re-raised by the
run functions unchanged and the catalog write is skipped; but inside the
video-generation tool `generate_video_with_veo_simple` every exception
from the external calls is caught and replaced by a fallback video in a
normal result, so that step's failure is not propagated and does not
abort the chain. -/
theorem failure_propagation_semantics (kick : CrewKind → Except PyErr String)
    (inputs : Inputs) (st : PipeState) (e : PyErr)
    (hk : ∀ c, kick c = Except.error e) :
    ((run_promotion_pipeline kick inputs st).result = Except.error e ∧
     (run_promotion_pipeline kick inputs st).state.db = st.db) ∧
    ((run_story_advertising_pipeline kick inputs st).result = Except.error e ∧
     (run_story_advertising_pipeline kick inputs st).state.db = st.db) ∧
    (∀ (c : VeoSimpleEnv) (fs : FS),
      c.hasApiKey = true → c.clientAvailable = true →
      c.envImagePath ≠ "" → fsExists fs c.envImagePath = true →
      c.genVideosRaises = some e →
      (generate_video_with_veo_simple c fs).2
        = Except.ok ((create_fallback_video c.ffmpegOk fs).2, "")) := by
  refine ⟨?_, ?_, ?_⟩
  · simp only [run_promotion_pipeline, hk]
    exact ⟨by trivial, by trivial⟩
  · simp only [run_story_advertising_pipeline, hk]
    exact ⟨by trivial, by trivial⟩
  · intro c fs hA hC hip hfs hg
    simp [generate_video_with_veo_simple, hA, hC, hip, hfs, veoSimpleVideoPhase, hg]

/-- C8 amended witness: a kickoff failure propagates through the
promotion run, and a raising video call yields the fallback. -/
theorem failure_propagation_semantics_witness :
    (run_promotion_pipeline (fun _ => Except.error (PyErr.externalError "boom"))
        promoInputsV1 freshState).result
      = Except.error (PyErr.externalError "boom") ∧
    (generate_video_with_veo_simple simpleRaisingEnv [FALLBACK_VIDEO, "img.png"]).2
      = Except.ok
          ((create_fallback_video simpleRaisingEnv.ffmpegOk [FALLBACK_VIDEO, "img.png"]).2,
            "") :=
  ⟨(failure_propagation_semantics (fun _ => Except.error (PyErr.externalError "boom"))
      promoInputsV1 freshState (PyErr.externalError "boom") (fun _ => rfl)).1.1,
   (failure_propagation_semantics (fun _ => Except.error (PyErr.externalError "boom"))
      promoInputsV1 freshState (PyErr.externalError "boom") (fun _ => rfl)).2.2
     simpleRaisingEnv [FALLBACK_VIDEO, "img.png"] rfl rfl (by decide) rfl rfl⟩

/-- C1 (amended): no `MissingFieldError` exists.  The three pipeline run
functions perform no validation — the crew kickoff is always invoked and
the run's outcome is exactly the kickoff's, so no `MissingFieldError` is
ever produced by a run whose kickoff does not produce one.  The only
validation lives in the Gradio handler, which returns a fill-in message
*without* invoking the pipeline when `user_name`, `product_name` or the
details text is the empty string (whitespace-only values pass). -/
theorem no_missing_field_validation_in_runs (kick : CrewKind → Except PyErr String)
    (inputs : Inputs) (st : PipeState)
    (hk : ∀ c msg, kick c ≠ Except.error (PyErr.missingFieldError msg)) :
    ((run_promotion_pipeline kick inputs st).kickoffCalled = true ∧
     (∀ msg, (run_promotion_pipeline kick inputs st).result
        ≠ Except.error (PyErr.missingFieldError msg)) ∧
     (run_story_advertising_pipeline kick inputs st).kickoffCalled = true ∧
     (∀ msg, (run_story_advertising_pipeline kick inputs st).result
        ≠ Except.error (PyErr.missingFieldError msg)) ∧
     (run_price_generation_pipeline kick inputs st).kickoffCalled = true ∧
     (∀ msg, (run_price_generation_pipeline kick inputs st).result
        ≠ Except.error (PyErr.missingFieldError msg))) ∧
    (∀ user_name product_name cost text_details image_file lang : String,
      (user_name = "" ∨ product_name = "" ∨ text_details = "") →
      (full_promotion_ui kick st user_name product_name cost text_details
          image_file lang).pipelineCalled = false ∧
      (full_promotion_ui kick st user_name product_name cost text_details
          image_file lang).output
        = "Please fill Your Name, Product Name and Product Details (text or audio).") := by
  constructor
  · refine ⟨run_promotion_kickoffCalled kick inputs st, ?_,
      run_story_kickoffCalled kick inputs st, ?_,
      run_price_kickoffCalled kick inputs st, ?_⟩
    · intro msg
      rw [run_promotion_result]
      exact hk _ msg
    · intro msg
      rw [run_story_result]
      exact hk _ msg
    · intro msg
      rw [run_price_result]
      exact hk _ msg
  · intro user_name product_name cost text_details image_file lang hempty
    rcases hempty with rfl | rfl | rfl
    · constructor <;> simp [full_promotion_ui]
    · constructor <;> simp [full_promotion_ui]
    · constructor <;> simp [full_promotion_ui]

/-- C1 amended witness: a successful kickoff and an empty `user_name` at
the UI. -/
theorem no_missing_field_validation_in_runs_witness :
    (run_promotion_pipeline kickOkDone promoInputsV1 freshState).kickoffCalled = true ∧
    (run_promotion_pipeline kickOkDone promoInputsV1 freshState).result
      ≠ Except.error (PyErr.missingFieldError "user_name missing") ∧
    (full_promotion_ui kickOkDone freshState "" "Mug" "50" "nice mug" "" "English").pipelineCalled
      = false :=
  ⟨(no_missing_field_validation_in_runs kickOkDone promoInputsV1 freshState
      (fun _ _ h => Except.noConfusion h)).1.1,
   (no_missing_field_validation_in_runs kickOkDone promoInputsV1 freshState
      (fun _ _ h => Except.noConfusion h)).1.2.1 "user_name missing",
   ((no_missing_field_validation_in_runs kickOkDone promoInputsV1 freshState
      (fun _ _ h => Except.noConfusion h)).2 "" "Mug" "50" "nice mug" "" "English"
      (Or.inl rfl)).1⟩

/-- C6: the user-supplied cost string is coerced, never rejected.  With a
successful kickoff and valid text fields, the Gradio handler always runs
the pipeline regardless of `cost`, and the price stored for the product
is the string of the parsed integer: `toString (pyInt cost)` when `cost`
is a non-empty digit string, `"0"` whenever it is empty or contains a
non-digit character. -/
theorem cost_coercion_policy (kick : CrewKind → Except PyErr String) (res : String)
    (hkick : ∀ c, kick c = Except.ok res)
    (user_name product_name cost text_details lang : String)
    (hu : pyStrip user_name ≠ "") (hn : pyStrip product_name ≠ "")
    (hd : pyStrip text_details ≠ "") :
    (full_promotion_ui kick freshState user_name product_name cost text_details
        "" lang).pipelineCalled = true ∧
    (∃ r : ProdRec,
      keyProducts (full_promotion_ui kick freshState user_name product_name cost
          text_details "" lang).state.db (pyStrip user_name) (pyStrip product_name)
        = [r] ∧
      r.price = toString (pyParseCost cost) ∧
      (pyIsdigit cost = true → r.price = toString (pyInt cost)) ∧
      (pyIsdigit cost = false → r.price = "0")) := by
  obtain ⟨hcall, hstate⟩ := full_promotion_ui_no_validation kick freshState user_name
    product_name cost text_details lang (ne_empty_of_pyStrip_ne _ hu)
    (ne_empty_of_pyStrip_ne _ hn) (ne_empty_of_pyStrip_ne _ hd)
  refine ⟨hcall, ?_⟩
  rw [hstate]
  rw [run_promotion_db_on_ok kick res hkick]
  have hU : pyStrip (pyOr (pyStrip user_name) (pyStrip user_name)) = pyStrip user_name := by
    rw [pyOr_self, pyStrip_idem]
  have hPN : pyStrip (pyStrip product_name) = pyStrip product_name := pyStrip_idem _
  have hTD : pyStrip (pyOr (pyStrip text_details) (pyStrip text_details))
      = pyStrip text_details := by
    rw [pyOr_self, pyStrip_idem]
  have hcond : (pyStrip (pyOr (pyStrip user_name) (pyStrip user_name)) != "" &&
      pyStrip (pyStrip product_name) != "" &&
      pyStrip (pyOr (pyStrip text_details) (pyStrip text_details)) != "") = true := by
    rw [hU, hPN, hTD]
    simp [hu, hn, hd]
  rw [if_pos hcond, hU, hPN, hTD]
  rw [promoSetup_image_value_empty
      { user := pyStrip user_name, user_name := pyStrip user_name,
        cost := some (pyParseCost cost), product_name := pyStrip product_name,
        product_details := pyStrip text_details, product_description := pyStrip text_details,
        product_image_path := "", image_path := "", language := lang }
      freshState rfl rfl rfl]
  rw [promoSetup_cost_value
      { user := pyStrip user_name, user_name := pyStrip user_name,
        cost := some (pyParseCost cost), product_name := pyStrip product_name,
        product_details := pyStrip text_details, product_description := pyStrip text_details,
        product_image_path := "", image_path := "", language := lang }
      freshState (pyParseCost cost) rfl rfl]
  rw [show freshState.db = emptyDB from rfl]
  rw [keyProducts_add_empty]
  refine ⟨_, rfl, rfl, ?_, ?_⟩
  · intro hdig
    rw [parse_cost_digits cost hdig]
  · intro hnd
    rw [parse_cost_nondigits cost hnd]
    rfl

/-- C6 witness: the spec's own pair — cost `"50"` stores `"50"`, cost
`"fifty"` stores `"0"` — on an otherwise identical request. -/
theorem cost_coercion_policy_witness :
    (∃ r : ProdRec,
      keyProducts (full_promotion_ui kickOkDone freshState "alice" "Mug" "50"
          "nice mug" "" "English").state.db (pyStrip "alice") (pyStrip "Mug") = [r] ∧
      r.price = toString (pyInt "50")) ∧
    (∃ r : ProdRec,
      keyProducts (full_promotion_ui kickOkDone freshState "alice" "Mug" "fifty"
          "nice mug" "" "English").state.db (pyStrip "alice") (pyStrip "Mug") = [r] ∧
      r.price = "0") := by
  constructor
  · obtain ⟨_, r, hk, _, hdig, _⟩ := cost_coercion_policy kickOkDone "done" (fun _ => rfl)
      "alice" "Mug" "50" "nice mug" "English" (by decide) (by decide) (by decide)
    exact ⟨r, hk, hdig (by decide)⟩
  · obtain ⟨_, r, hk, _, _, hnd⟩ := cost_coercion_policy kickOkDone "done" (fun _ => rfl)
      "alice" "Mug" "fifty" "nice mug" "English" (by decide) (by decide) (by decide)
    exact ⟨r, hk, hnd (by decide)⟩

/-- C7: if the operation reports `done=False` at the first two checks and
`done=True` at the third, the polling loop of `generate_video_with_veo`
exits exactly at the third check, i.e. after exactly 2 intervening
sleep-and-repoll iterations, and the call returns (does not keep
polling). -/
theorem veo_poll_two_then_done (c : VeoEnv) (fs : FS) (ip : Option String) (fuel : Nat)
    (h0 : c.opDone 0 = false) (h1 : c.opDone 1 = false) (h2 : c.opDone 2 = true)
    (hfuel : 3 ≤ fuel) :
    veoPoll c.opDone fuel 0 = some 2 ∧ generate_video_with_veo c fs ip fuel ≠ none := by
  obtain ⟨k, rfl⟩ : ∃ k, fuel = k + 3 := ⟨fuel - 3, by omega⟩
  have hpoll : veoPoll c.opDone (k + 3) 0 = some 2 := by
    show veoPoll c.opDone (k + 2 + 1) 0 = some 2
    rw [veoPoll]
    simp only [h0, Bool.false_eq_true, if_false]
    show veoPoll c.opDone (k + 1 + 1) 1 = some 2
    rw [veoPoll]
    simp only [h1, Bool.false_eq_true, if_false]
    show veoPoll c.opDone (k + 0 + 1) 2 = some 2
    rw [veoPoll]
    simp only [h2, if_true]
  refine ⟨hpoll, ?_⟩
  simp only [generate_video_with_veo, hpoll]
  repeat' split
  all_goals simp

/-- C7 witness: a fake operation that completes at the third check. -/
theorem veo_poll_two_then_done_witness :
    veoPoll (fun n => decide (2 ≤ n)) 5 0 = some 2 ∧
    generate_video_with_veo
      { hasApiKey := true, clientAvailable := true, imagenReturnsImages := true
        opDone := fun n => decide (2 ≤ n), downloadOk := true } [] none 5 ≠ none :=
  veo_poll_two_then_done
    { hasApiKey := true, clientAvailable := true, imagenReturnsImages := true
      opDone := fun n => decide (2 ≤ n), downloadOk := true }
    [] none 5 rfl rfl rfl (by omega)

end GenAI
